import Mathlib

/-!
Verification development for the moxie dictation-practice backend
(`src/functions/api/_handler.ts`).  The submission pipeline and its pure
helpers are shallowly embedded below; JavaScript numbers are modelled as
`ℚ`/`ℤ`/`ℕ` (all arithmetic performed by the relevant code paths is exact),
KV and R2 stores are modelled as maps, and the two external AI calls, the
object-store write and the fallible KV operations that the handler wraps in
`try`/`catch` are driven by an explicit oracle.
-/

namespace Moxie

/-! ## Constants (from the top of `_handler.ts`) -/

def SCORE_PER_QUESTION : ℕ := 2
def REFERENCE_QUESTION_COUNT_FOR_POINTS : ℕ := 4
def MAX_POINTS_BASE : ℚ := 80
def SUBMIT_COOLDOWN_SECONDS : ℕ := 45
def CHAPTER_DAILY_SUBMIT_LIMIT : ℤ := 2
def CHAPTER_WEEKLY_SUBMIT_LIMIT : ℤ := 8
def MAX_UPLOAD_IMAGE_BYTES : ℕ := 5 * 1024 * 1024

/-! ## Numeric helpers -/

/-- Model of JavaScript `Math.round`: round half towards positive infinity,
i.e. `⌊x + 1/2⌋`. -/
def roundJs (q : ℚ) : ℤ := ⌊q + 1 / 2⌋

/-- Source `getScoreTarget` (line 437): `Math.max(1, questionCount) * SCORE_PER_QUESTION`.
The `Number.isFinite` guard is vacuous for natural-number question counts. -/
def getScoreTarget (questionCount : ℕ) : ℕ :=
  max 1 questionCount * SCORE_PER_QUESTION

/-- Source `parseStoredCounter` (line 442).  A stored KV cell is modelled as
`Option (Option ℤ)`: the outer `Option` is cell presence (`null` raw value),
the inner `Option` is the result of `parseInt` (`none` for an unparsable
string, i.e. `NaN`). -/
def parseStoredCounter (rawValue : Option (Option ℤ)) (fallbackOnInvalid : ℤ) : ℤ :=
  match rawValue with
  | none => 0
  | some none => fallbackOnInvalid
  | some (some parsed) => if parsed < 0 then fallbackOnInvalid else parsed

/-- Source `calculatePointsAwarded` (line 453).  `Math.sqrt` has no exact
rational counterpart, so the square-root function is taken as a parameter;
every theorem below holds for an arbitrary `sqrtFn`, in particular for the
real square root. -/
def calculatePointsAwarded (sqrtFn : ℚ → ℚ) (totalScore scoreTarget : ℚ)
    (questionCount : ℕ) : ℤ :=
  let safeScoreTarget := max scoreTarget 1
  let accuracy := max 0 (min 1 (totalScore / safeScoreTarget))
  let difficultyFactor :=
    max (4 / 5) (min (3 / 2)
      (sqrtFn ((max questionCount 1 : ℚ) / (REFERENCE_QUESTION_COUNT_FOR_POINTS : ℚ))))
  let basePoints := roundJs (MAX_POINTS_BASE * accuracy * difficultyFactor)
  let participationBonus : ℤ := 5
  let fullScoreBonus : ℤ := if 1 ≤ accuracy then 15 else 0
  basePoints + participationBonus + fullScoreBonus

/-! ## Unicode punctuation / symbol / separator stripping -/

/-- Character class of the regex `/[\p{P}\p{S}\p{Z}]+/gu` used by
`removePunctuation` (line 1646): Unicode punctuation, symbols and
separators.  The class is materialised here over the character ranges
relevant to this code base (ASCII punctuation/symbols/space, Latin-1
punctuation, general punctuation and separators, CJK punctuation,
fullwidth/halfwidth forms); CJK ideographs, kana, ASCII letters and digits
are not in the class. -/
def isPuncSymbolSep (c : Char) : Bool :=
  let n := c.toNat
  decide ((0x20 ≤ n ∧ n ≤ 0x2F) ∨ (0x3A ≤ n ∧ n ≤ 0x40) ∨
    (0x5B ≤ n ∧ n ≤ 0x60) ∨ (0x7B ≤ n ∧ n ≤ 0x7E) ∨
    (0xA0 ≤ n ∧ n ≤ 0xA9) ∨ n = 0xAB ∨ n = 0xAC ∨ (0xAE ≤ n ∧ n ≤ 0xB1) ∨
    n = 0xB6 ∨ n = 0xB7 ∨ n = 0xBB ∨ n = 0xBF ∨ n = 0xD7 ∨ n = 0xF7 ∨
    (0x2000 ≤ n ∧ n ≤ 0x200A) ∨ (0x2010 ≤ n ∧ n ≤ 0x2027) ∨
    n = 0x2028 ∨ n = 0x2029 ∨ n = 0x202F ∨ (0x2030 ≤ n ∧ n ≤ 0x205F) ∨
    n = 0x3000 ∨ (0x3001 ≤ n ∧ n ≤ 0x3003) ∨ (0x3008 ≤ n ∧ n ≤ 0x3011) ∨
    (0x3014 ≤ n ∧ n ≤ 0x301F) ∨
    (0xFF01 ≤ n ∧ n ≤ 0xFF0F) ∨ (0xFF1A ≤ n ∧ n ≤ 0xFF20) ∨
    (0xFF3B ≤ n ∧ n ≤ 0xFF40) ∨ (0xFF5B ≤ n ∧ n ≤ 0xFF65))

/-- Source `removePunctuation` (line 1646):
`text.replace(/[\p{P}\p{S}\p{Z}]+/gu, '')` — globally deleting every
character of the class is the same as filtering them out. -/
def removePunctuation (text : String) : String :=
  String.mk (text.toList.filter (fun c => !isPuncSymbolSep c))

/-! ## Tiers and leaderboard entries -/

structure TierInfo where
  tierLevel : ℕ
  tierName : String
  modeName : String
  nextTierName : Option String
  progressPercent : ℤ
  deriving Repr, DecidableEq

structure TierRow where
  minPoints : ℤ
  tierLevel : ℕ
  tierName : String
  modeName : String
  deriving Repr, DecidableEq

/-- Source `IDV_TIERS` table (line 466). -/
def IDV_TIERS : List TierRow :=
  [⟨0, 1, "工蜂", "常規排位"⟩, ⟨200, 2, "獵犬", "常規排位"⟩,
   ⟨600, 3, "馴鹿", "常規排位"⟩, ⟨1200, 4, "猛獁", "常規排位"⟩,
   ⟨2000, 5, "獅鷲", "常規排位"⟩, ⟨3200, 6, "獨角獸", "常規排位"⟩,
   ⟨4800, 7, "殿堂勇士", "殿堂模式"⟩, ⟨7000, 8, "巔峰泰坦", "巔峰模式"⟩]

/-- Index of the current tier: the source loop (line 479) keeps advancing
`currentIndex` while the threshold is met and breaks at the first row whose
threshold is not met. -/
def tierIndexLoop (points : ℤ) (rows : List TierRow) (i acc : ℕ) : ℕ :=
  match rows with
  | [] => acc
  | r :: rest =>
      if r.minPoints ≤ points then tierIndexLoop points rest (i + 1) i else acc

/-- Source `getTierInfo` (line 477). -/
def getTierInfo (points : ℤ) : TierInfo :=
  let currentIndex := tierIndexLoop points IDV_TIERS 0 0
  let current := (IDV_TIERS.get? currentIndex).getD ⟨0, 1, "工蜂", "常規排位"⟩
  let next := IDV_TIERS.get? (currentIndex + 1)
  let progressPercent : ℤ :=
    match next with
    | none => 100
    | some nxt =>
        let span := nxt.minPoints - current.minPoints
        max 0 (min 100 (roundJs (((points - current.minPoints : ℤ) : ℚ) / (span : ℚ) * 100)))
  { tierLevel := current.tierLevel, tierName := current.tierName,
    modeName := current.modeName, nextTierName := next.map (·.tierName),
    progressPercent := progressPercent }

structure UserStats where
  userId : String
  username : String
  points : ℤ
  attempts : ℕ
  totalScore : ℚ
  updatedAt : ℕ
  deriving Repr, DecidableEq

structure LeaderboardEntry where
  stats : UserStats
  avgScore : ℚ
  tier : TierInfo
  deriving Repr, DecidableEq

/-- Source `toLeaderboardEntry` (line 504):
`avgScore = attempts > 0 ? Math.round((totalScore / attempts) * 100) / 100 : 0`. -/
def toLeaderboardEntry (stats : UserStats) : LeaderboardEntry :=
  { stats := stats
    avgScore :=
      if 0 < stats.attempts then
        ((roundJs (stats.totalScore / (stats.attempts : ℚ) * 100) : ℚ)) / 100
      else 0
    tier := getTierInfo stats.points }

/-! ## Scoring (submit route, lines 1641–1699) -/

structure SubmissionResult where
  questionIndex : ℕ
  questionId : String
  success : Bool
  recognizedText : String
  correctAnswer : String
  isCorrect : Bool
  score : ℚ
  error : Option String
  deriving Repr, DecidableEq

/-- JavaScript `recognized.startsWith("[")` (line 1658): for the one-character
pattern this is exactly "the first character is `[`". -/
def startsWithBracket (s : String) : Bool :=
  match s.toList with
  | c :: _ => c = '['
  | [] => false

/-- Body of the scoring loop (lines 1652–1697) for one answer slot.
`recognized` is the (already defaulted) OCR line, `correct` the reference
answer (`none` models the `undefined` JavaScript lookup), `pQ` the
`pointsPerQuestion` value. -/
def scoreOne (i : ℕ) (questionId : String) (recognized : String)
    (correct : Option String) (pQ : ℚ) : SubmissionResult :=
  let success0 := !(startsWithBracket recognized)
  let step1 : Bool × Option String :=
    if recognized = "[OCR調用失敗]" ∨ recognized = "[答案提取失敗]" ∨
        recognized = "[答案缺失]" then
      (false, some ((recognized.drop 1).dropRight 1))
    else if recognized = "[無法識別]" then (false, some "AI 無法識別此答案")
    else (success0, none)
  let success1 := step1.1
  let itemError0 := step1.2
  match correct with
  | some c =>
      let correctShown := if c = "" then "[標準答案缺失]" else c
      if success1 then
        let cleanedRecognized := removePunctuation recognized
        let cleanedCorrect := removePunctuation c
        let isCorrect := cleanedRecognized == cleanedCorrect && cleanedRecognized != ""
        let itemError1 :=
          if ¬isCorrect ∧ cleanedRecognized = "" ∧ recognized ≠ "" then
            some "識別結果僅包含標點或空格"
          else if recognized.trim = "" ∧ itemError0 = none then
            some "未作答或未識別到內容"
          else itemError0
        { questionIndex := i, questionId := questionId, success := success1,
          recognizedText := recognized, correctAnswer := correctShown,
          isCorrect := isCorrect, score := if isCorrect then pQ else 0,
          error := itemError1 }
      else
        { questionIndex := i, questionId := questionId, success := success1,
          recognizedText := recognized, correctAnswer := correctShown,
          isCorrect := false, score := 0, error := itemError0 }
  | none =>
      { questionIndex := i, questionId := questionId, success := false,
        recognizedText := recognized, correctAnswer := "[標準答案缺失]",
        isCorrect := false, score := 0,
        error := some (match itemError0 with
          | some e => e ++ "; 標準答案缺失"
          | none => "標準答案缺失") }

/-- Per-question point value (line 1644):
`expectedQuestionCount > 0 ? (scoreTarget / expectedQuestionCount) : 0`. -/
def pointsPerQuestion (n : ℕ) : ℚ :=
  if 0 < n then (getScoreTarget n : ℚ) / (n : ℚ) else 0

/-- Result list of the scoring loop (lines 1652–1697): slot `i` reads
`splitAnswers[i]` (defaulting to `"[答案缺失]"` when `undefined`),
`correctAnswers[i]` and `questionIds[i]`. -/
def scoreResults (splitAnswers correctAnswers questionIds : List String) (n : ℕ) :
    List SubmissionResult :=
  (List.range n).map (fun i =>
    scoreOne i ((questionIds.get? i).getD "")
      ((splitAnswers.get? i).getD "[答案缺失]")
      (correctAnswers.get? i) (pointsPerQuestion n))

/-- Scoring stage: the loop plus the final one-decimal rounding
`totalScore = Math.round(totalScore * 10) / 10` (line 1699).  Returns the
per-slot results and the rounded total score. -/
def scoreAll (splitAnswers correctAnswers questionIds : List String) (n : ℕ) :
    List SubmissionResult × ℚ :=
  let results := scoreResults splitAnswers correctAnswers questionIds n
  let raw := (results.map (·.score)).sum
  (results, ((roundJs (raw * 10) : ℚ)) / 10)

/-! ## External AI call modelling -/

inductive GeminiPart where
  | text (s : String)
  | other
  deriving Repr, DecidableEq

structure GeminiCandidate where
  finishReason : Option String
  parts : List GeminiPart
  deriving Repr, DecidableEq

structure GeminiError where
  message : String
  deriving Repr, DecidableEq

structure GeminiApiResponse where
  candidates : List GeminiCandidate
  error : Option GeminiError
  deriving Repr, DecidableEq

/-- Outcome of one `callGeminiAPI` invocation: either the promise rejected
(after the client's internal retries) or a structured response arrived. -/
inductive GeminiCallResult where
  | threw (msg : String)
  | ok (resp : GeminiApiResponse)
  deriving Repr, DecidableEq

/-- JavaScript truthiness of an optional string (`null`/`undefined` and `""`
are falsy). -/
def optTruthy : Option String → Bool
  | some s => s ≠ ""
  | none => false

/-- JavaScript `String.prototype.includes` for a non-empty pattern. -/
def jsIncludes (s pat : String) : Bool :=
  (s.splitOn pat).length ≠ 1

/-- Approximate model of `Number.prototype.toFixed(1)` for the non-negative
one-decimal quantities that reach it; only used inside message strings whose
exact content no claim depends on. -/
def toFixed1 (q : ℚ) : String :=
  let m := roundJs (q * 10)
  toString (m / 10) ++ "." ++ toString (m.natAbs % 10)

/-- OCR stage (lines 1589–1637): classify the vision-call outcome into the
aligned `splitAnswers` list and the optional `ocrError` note.  A thrown call
yields `n` `"[OCR調用失敗]"` placeholders; a non-`"STOP"` finish reason or a
malformed response leaves `splitAnswers` empty (every slot then defaults to
`"[答案缺失]"` in the scoring loop); a wrong line count is padded/truncated
to `n`. -/
def runOcr (call : GeminiCallResult) (n : ℕ) : List String × Option String :=
  match call with
  | .threw msg =>
      (List.replicate n "[OCR調用失敗]", some ("AI OCR 識別服務調用失敗: " ++ msg))
  | .ok resp =>
      let candidate := resp.candidates.head?
      let part := candidate.bind (fun c => c.parts.head?)
      let fr := candidate.bind (·.finishReason)
      let ocrError1 : Option String :=
        if optTruthy fr ∧ fr.getD "" ≠ "STOP" then
          some ("AI處理可能未完成 (" ++ fr.getD "" ++ ")。")
        else none
      let extraction : String × Option String :=
        match part with
        | some (.text t) => (t.trim, ocrError1)
        | _ =>
            match resp.error with
            | some e => ("", some ("AI OCR 服務錯誤: " ++ e.message))
            | none => ("", some "AI OCR 返回了非預期的響應格式 (無文本部分)。")
      let recognized := extraction.1
      let ocrError2 := extraction.2
      match ocrError2 with
      | some e => ([], some e)
      | none =>
          if recognized = "" then
            ([], some (match fr with
              | some "SAFETY" => "AI OCR 因安全設置拒絕處理圖片內容。"
              | some "RECITATION" => "AI OCR 因檢測到引用內容而停止。"
              | some "MAX_TOKENS" => "AI OCR 處理超時或輸出長度受限。"
              | _ => "AI OCR 未能識別出任何文本內容。"))
          else
            let sa := (recognized.splitOn "\n").map (·.trim)
            if sa.length ≠ n then
              ((sa ++ List.replicate (n - sa.length) "[答案缺失]").take n,
               some ("AI OCR 未能準確分割出 " ++ toString n ++ " 個答案 (找到了 " ++
                 toString sa.length ++ " 個)。答案可能擠在一起或部分無法識別。"))
            else (sa, none)

/-- Error-detail digest fed to the feedback prompt and to the fallback
feedback text (lines 1715–1727). -/
def buildErrorDetails (results : List SubmissionResult) : String :=
  let incorrect := results.filter (fun r => !r.isCorrect)
  String.intercalate "\n\n" (incorrect.map (fun r =>
    let reason :=
      if r.recognizedText = "[無法識別]" then "(字跡無法識別)"
      else if r.recognizedText = "[答案缺失]" then "(未找到對應答案)"
      else if r.recognizedText = "[答案提取失敗]" then "(答案提取過程失敗)"
      else if r.recognizedText = "[OCR調用失敗]" then "(圖片識別過程失敗)"
      else if removePunctuation r.recognizedText = "" then "(未作答或僅有標點)"
      else match r.error with
        | some e => "(原因: " ++ e ++ ")"
        | none => "(內容錯誤)"
    "第 " ++ toString (r.questionIndex + 1) ++ " 題 " ++ reason ++
      ":\n  你的答案: \"" ++ r.recognizedText ++ "\"\n  正確答案: \"" ++
      r.correctAnswer ++ "\""))

/-- Deterministic fallback feedback text (lines 1793 and 1799). -/
def fallbackFeedback (totalScore scoreTarget : ℚ) (errorDetails : String) : String :=
  "得分 " ++ toFixed1 totalScore ++ "，失分 " ++ toFixed1 (scoreTarget - totalScore) ++
    "。這次表現還有進步空間哦。看看下面的錯誤細節，下次加油！\n錯誤詳情:\n" ++
    (if errorDetails ≠ "" then errorDetails else "（未能生成詳細的錯誤分析）")

/-- Extraction-failure diagnosis (lines 1765–1771): explicit API error,
else no candidates / no parts / first part not text. -/
def extractFeedbackFailureReason (resp : GeminiApiResponse) : String :=
  match resp.error with
  | some e => "API Error: " ++ e.message
  | none =>
      if resp.candidates.length = 0 then "No candidates."
      else if ((resp.candidates.head?).map (·.parts.length)).getD 0 = 0 then
        "No parts."
      else "First part not text."

/-- Feedback-text extraction (lines 1755–1772): the first candidate's first
part when it is non-blank text after trimming, otherwise the
extraction-failure diagnosis string. -/
def extractFeedbackText (resp : GeminiApiResponse) : Option String × String :=
  match resp.candidates.head?.bind (fun c => c.parts.head?) with
  | some (.text t) =>
      if t.trim ≠ "" then (some t.trim, "")
      else (none, "Extracted text is empty.")
  | some .other => (none, extractFeedbackFailureReason resp)
  | none => (none, extractFeedbackFailureReason resp)

/-- Feedback stage (lines 1702–1801).  A perfect score short-circuits to the
fixed congratulation; otherwise the text-model call outcome is classified
exactly as in the source.  Returns
`(feedback, feedbackErrorMsg, feedbackFinishReason, aiCalled)`. -/
def feedbackStage (call : GeminiCallResult) (totalScore scoreTarget : ℚ)
    (errorDetails : String) : String × Option String × Option String × Bool :=
  if totalScore = scoreTarget then
    ("太棒了！滿分 " ++ toString scoreTarget ++ " 分！簡直是默寫的神！繼續保持！",
     none, none, false)
  else
    match call with
    | .threw msg =>
        (fallbackFeedback totalScore scoreTarget errorDetails,
         some ("AI 反饋生成服務調用失敗: " ++ msg), none, true)
    | .ok resp =>
        let candidate := resp.candidates.head?
        let ffr := candidate.bind (·.finishReason)
        let extractionFailureReason := (extractFeedbackText resp).2
        match (extractFeedbackText resp).1 with
        | some gt =>
            if optTruthy ffr ∧ ffr.getD "" ≠ "STOP" then
              let reasonWarning :=
                if ffr.getD "" = "MAX_TOKENS" then "回覆可能因長度限制被截斷。"
                else if ffr.getD "" = "SAFETY" then "回覆可能因安全設置被部分過濾。"
                else if ffr.getD "" = "RECITATION" then "回覆可能因檢測到引用內容而提前終止。"
                else "回覆處理因 (" ++ ffr.getD "" ++ ") 而結束。"
              (gt ++ "\n\n[系統提示: " ++ reasonWarning ++ "]", some reasonWarning, ffr, true)
            else (gt, none, ffr, true)
        | none =>
            let fallbackReason :=
              if ¬ jsIncludes extractionFailureReason.toLower "api error" ∧
                  optTruthy ffr ∧ ffr.getD "" ≠ "STOP" then
                extractionFailureReason ++ " (處理結束原因: " ++ ffr.getD "" ++ ")"
              else extractionFailureReason
            (fallbackFeedback totalScore scoreTarget errorDetails,
             some ("AI 反饋生成成功，但內容提取失敗 (" ++ fallbackReason ++ ")。"), ffr, true)

/-- Final message construction (lines 1804–1814). -/
def buildFinalMessage (ocrError : Option String) (feedbackErrorMsg : Option String)
    (feedbackFinishReason : Option String) : String :=
  match ocrError, feedbackErrorMsg with
  | some _, some _ => "評分完成，但圖片識別和 AI 反饋生成均遇到問題。"
  | some _, none => "評分完成，但圖片識別過程遇到問題。"
  | none, some m =>
      let detail :=
        if optTruthy feedbackFinishReason ∧ feedbackFinishReason.getD "" ≠ "STOP" ∧
            ¬ jsIncludes m (feedbackFinishReason.getD "") then
          m ++ " (原因: " ++ feedbackFinishReason.getD "" ++ ")"
        else m
      "評分完成，但 AI 反饋生成過程遇到問題: " ++ detail
  | none, none => "評分完成。"

/-! ## State, request and environment modelling

The KV namespace and the R2 bucket are modelled as total maps from each key
family to optional values; TTLs are not modelled (no claim involves the
passage of time).  Authentication has already happened: the session's
`userId`/`username` are part of the environment, as are the period keys
(`getDailyKey`/`getWeeklyKey` are date formatting only), the fresh R2 object
key (`generateUniqueKey` is timestamp+UUID randomness) and the image
fingerprint carried inside `ImageFile` (`hashSha256Base64Url` is abstracted
to an opaque string: no claim depends on hash collisions). -/

structure QuestionInfo where
  id : String
  question : String
  answer : String
  sourceTitle : Option String := none
  sourceAuthor : Option String := none
  sourceCategory : Option String := none
  sourceOrder : Option ℤ := none
  deriving Repr, DecidableEq

structure QuestionSet where
  setId : String
  questions : List QuestionInfo
  createdAt : ℕ
  ownerUserId : String
  usedAt : Option ℕ := none
  deriving Repr, DecidableEq

structure ImageFile where
  size : ℕ
  contentType : String
  fingerprint : String
  deriving Repr, DecidableEq

/-- One `formData.get(...)` result: absent, a string field, or a file. -/
inductive FormField where
  | missing
  | str (s : String)
  | file (f : ImageFile)
  deriving Repr, DecidableEq

structure SubmitRequest where
  setId : FormField
  chapterOrder : FormField
  handwritingImage : FormField
  deriving Repr, DecidableEq

/-- A string form field is "present" when it is a string and truthy
(`typeof v === 'string' && v`, lines 1437/1441). -/
def FormField.presentStr : FormField → Bool
  | .str s => s != ""
  | _ => false

inductive LeaderboardScope where
  | total
  | weekly
  | daily
  deriving Repr, DecidableEq

/-- Chapter attempt-counter scope (`'daily' | 'weekly'`, line 416). -/
inductive CScope where
  | daily
  | weekly
  deriving Repr, DecidableEq

/-- Key of one `moxie:chapter-attempt:...` cell:
scope, period, userId, chapterOrder. -/
abbrev CKey : Type := CScope × String × String × ℤ

/-- Key of one `moxie:leaderboard:...:user:...` stats cell:
scope, period, userId. -/
abbrev SKey : Type := LeaderboardScope × String × String

/-- Combined KV namespace + R2 bucket state, one map per key family. -/
structure Store where
  submitLock : String → Option String
  submitCooldown : String → Option String
  gaokaoSetLock : String → Option String
  gaokaoSets : String → Option QuestionSet
  chapterAttempt : CKey → Option (Option ℤ)
  fingerprints : String × String → Option String
  stats : SKey → Option UserStats
  r2 : String → Option ImageFile
  leaderboardVersion : ℕ

def Store.putSubmitLock (st : Store) (u v : String) : Store :=
  { st with submitLock := fun k => if k = u then some v else st.submitLock k }

def Store.delSubmitLock (st : Store) (u : String) : Store :=
  { st with submitLock := fun k => if k = u then none else st.submitLock k }

def Store.putCooldown (st : Store) (u v : String) : Store :=
  { st with submitCooldown := fun k => if k = u then some v else st.submitCooldown k }

def Store.putGaokaoSetLock (st : Store) (s v : String) : Store :=
  { st with gaokaoSetLock := fun k => if k = s then some v else st.gaokaoSetLock k }

def Store.delGaokaoSetLock (st : Store) (s : String) : Store :=
  { st with gaokaoSetLock := fun k => if k = s then none else st.gaokaoSetLock k }

def Store.delGaokaoSet (st : Store) (s : String) : Store :=
  { st with gaokaoSets := fun k => if k = s then none else st.gaokaoSets k }

def Store.putChapterAttempt (st : Store) (ck : CKey) (v : Option ℤ) : Store :=
  { st with chapterAttempt := fun k => if k = ck then some v else st.chapterAttempt k }

def Store.putFingerprint (st : Store) (fk : String × String) (v : String) : Store :=
  { st with fingerprints := fun k => if k = fk then some v else st.fingerprints k }

def Store.delFingerprint (st : Store) (fk : String × String) : Store :=
  { st with fingerprints := fun k => if k = fk then none else st.fingerprints k }

def Store.putStats (st : Store) (sk : SKey) (v : UserStats) : Store :=
  { st with stats := fun k => if k = sk then some v else st.stats k }

def Store.putR2 (st : Store) (key : String) (blob : ImageFile) : Store :=
  { st with r2 := fun k => if k = key then some blob else st.r2 k }

def Store.delR2 (st : Store) (key : String) : Store :=
  { st with r2 := fun k => if k = key then none else st.r2 k }

def Store.bumpVersion (st : Store) : Store :=
  { st with leaderboardVersion := st.leaderboardVersion + 1 }

/-- One chapter of the static poem corpus (`getPreparedPoemData().chapterMap`). -/
structure ChapterEntry where
  order : ℤ
  title : String
  author : Option String
  category : String
  questions : List (String × String)
  deriving Repr, DecidableEq

/-- Request-independent context of one submit invocation. -/
structure SubmitEnv where
  userId : String
  username : String
  now : ℕ
  dailyKey : String
  weeklyKey : String
  freshR2Key : String
  corpus : ℤ → Option ChapterEntry
  sqrtFn : ℚ → ℚ

/-- Oracle driving every fallible external interaction of one run: the two
AI calls, the R2 image write, and the KV operations the handler wraps in
`try`/`catch` (the GaoKao set read at line 1478, the used-set delete at line
1824) or whose failure the spec discusses (the stats writes); the
leaderboard snapshot rebuild (errors swallowed, line 1848). -/
structure Oracle where
  gaokaoGetOk : Bool
  r2PutOk : Bool
  ocr : GeminiCallResult
  feedbackCall : GeminiCallResult
  gaokaoDeleteOk : Bool
  statsOk : Bool
  leaderboardOk : Bool

/-- Run-local mutable flags of the handler (lines 1414–1423) plus the
external-call events needed to state the claims. -/
structure RunTrace where
  challenge : Option Bool := none
  gaokaoSetLockKey : Option String := none
  chapterInfo : Option (ℤ × ℤ × ℤ) := none
  imageFingerprintKey : Option (String × String) := none
  imageFingerprintReserved : Bool := false
  imageFingerprintFinalized : Bool := false
  r2Key : Option String := none
  scoreCommitted : Bool := false
  r2Puts : List String := []
  aiCalls : ℕ := 0
  deriving Repr, DecidableEq

/-- Challenge marker values for `RunTrace.challenge`: `true` = GaoKao,
`false` = Chapter. -/
def gaokaoChallenge : Bool := true

def chapterChallenge : Bool := false

/-- HTTP-level outcome of the submit route. -/
structure SubmitResponse where
  message : String
  totalScore : ℚ
  scoreTarget : ℚ
  results : List SubmissionResult
  feedback : String
  ocrIssue : Option String
  feedbackIssue : Option String
  pointsAwarded : ℤ
  totalStats : UserStats
  weeklyStats : UserStats
  dailyStats : UserStats
  deriving Repr, DecidableEq

inductive Outcome where
  | ok (resp : SubmitResponse)
  | err (status : ℕ) (msg : String)
  deriving Repr, DecidableEq

def Outcome.isOk : Outcome → Bool
  | .ok _ => true
  | .err _ _ => false

/-! ## The submit route (lines 1393–1898) -/

/-- Model of JavaScript `parseInt(s, 10)`: skip leading whitespace, optional
sign, then the maximal digit run; `none` models `NaN`. -/
def parseIntJs (s : String) : Option ℤ :=
  let cs := s.toList.dropWhile (fun c => c.isWhitespace)
  let signAndRest : ℤ × List Char :=
    match cs with
    | '-' :: rest => (-1, rest)
    | '+' :: rest => (1, rest)
    | _ => (1, cs)
  let digits := signAndRest.2.takeWhile (fun c => c.isDigit)
  if digits.isEmpty then none
  else some (signAndRest.1 *
    ((digits.foldl (fun acc c => acc * 10 + (c.toNat - 48)) 0 : ℕ) : ℤ))

/-- Request validation (lines 1427–1459): identify the challenge (the
`setId` branch is tested first, so a truthy `setId` always wins), then
validate the image field and its size bound.  The challenge kind is
`gaokaoChallenge`/`chapterChallenge`. -/
def validateRequest (req : SubmitRequest) : Except (ℕ × String) (Bool × String × ImageFile) :=
  let chall : Option (Bool × String) :=
    match req.setId with
    | .str s =>
        if s ≠ "" then some (gaokaoChallenge, s)
        else
          match req.chapterOrder with
          | .str c => if c ≠ "" then some (chapterChallenge, c) else none
          | _ => none
    | _ =>
        match req.chapterOrder with
        | .str c => if c ≠ "" then some (chapterChallenge, c) else none
        | _ => none
  match chall with
  | none => .error (400, "請求無效：缺少有效的挑戰標識 (題組 ID 或篇目順序號)。")
  | some (ck, ident) =>
      match req.handwritingImage with
      | .missing => .error (400, "請求無效：未上傳圖片。")
      | .str _ => .error (400, "請求無效：數據格式不正確（應為文件）。")
      | .file f =>
          if f.size = 0 then .error (400, "請求無效：圖片文件大小為 0。")
          else if MAX_UPLOAD_IMAGE_BYTES < f.size then
            .error (413, "圖片過大，請上傳不超過 " ++
              toString (MAX_UPLOAD_IMAGE_BYTES / 1024 / 1024) ++ "MB 的圖片。")
          else .ok (ck, ident, f)

/-- Truthiness of the `usedAt` field (line 1491): a stored `usedAt` of `0`
is falsy in JavaScript. -/
def usedAtTruthy : Option ℕ → Bool
  | some t => t != 0
  | none => false

/-- Loaded-set validation of the GaoKao resolution (lines 1484–1494):
missing/empty set, ownership (a falsy `ownerUserId` also fails), and the
truthiness check of `usedAt` (a stored `usedAt` of `0` is falsy). -/
def checkGaokaoSet (env : SubmitEnv) (qsOpt : Option QuestionSet) :
    Except (ℕ × String) (List QuestionInfo) :=
  match qsOpt with
  | none => .error (400, "無效的“挑戰高考”題組信息，請重新開始。")
  | some qs =>
      if qs.questions.length = 0 then
        .error (400, "無效的“挑戰高考”題組信息，請重新開始。")
      else if qs.ownerUserId = "" ∨ qs.ownerUserId ≠ env.userId then
        .error (403, "此題組不屬於當前登錄用戶，請重新開始挑戰。")
      else if usedAtTruthy qs.usedAt then
        .error (409, "此題組已提交過，請重新開始新的挑戰。")
      else .ok qs.questions

/-- GaoKao challenge resolution (lines 1468–1496): per-set lock check and
acquisition, fallible KV read, then `checkGaokaoSet` on the loaded value. -/
def resolveGaokaoStage (env : SubmitEnv) (o : Oracle) (ident : String) (st : Store)
    (tr : RunTrace) : Except (ℕ × String) (List QuestionInfo) × Store × RunTrace :=
  match st.gaokaoSetLock ident with
  | some _ => (.error (409, "此題組正在提交中，請勿重複提交。"), st, tr)
  | none =>
      let st1 := st.putGaokaoSetLock ident (toString env.now)
      let tr1 := { tr with gaokaoSetLockKey := some ident }
      if ¬ o.gaokaoGetOk then
        (.error (404, "無法獲取“挑戰高考”題組信息，會話可能已過期或ID無效，請重新開始。"),
         st1, tr1)
      else (checkGaokaoSet env (st1.gaokaoSets ident), st1, tr1)

/-- Chapter challenge resolution (lines 1498–1534): numeric order parsing,
daily/weekly attempt-quota checks (counters parsed with the corresponding
limit as the fallback for corrupt cells), then corpus lookup; reads only. -/
def resolveChapterStage (env : SubmitEnv) (ident : String) (st : Store) (tr : RunTrace) :
    Except (ℕ × String) (List QuestionInfo) × RunTrace :=
  match parseIntJs ident with
  | none => (.error (400, "請求無效：篇目順序號 (chapterOrder) 必須是數字。"), tr)
  | some order =>
      let dCount := parseStoredCounter
        (st.chapterAttempt (CScope.daily, env.dailyKey, env.userId, order))
        CHAPTER_DAILY_SUBMIT_LIMIT
      let wCount := parseStoredCounter
        (st.chapterAttempt (CScope.weekly, env.weeklyKey, env.userId, order))
        CHAPTER_WEEKLY_SUBMIT_LIMIT
      let tr1 := { tr with chapterInfo := some (order, dCount, wCount) }
      if CHAPTER_DAILY_SUBMIT_LIMIT ≤ dCount then
        (.error (429, "本篇今日已達 " ++ toString CHAPTER_DAILY_SUBMIT_LIMIT ++
          " 次提交上限，請明日再試。"), tr1)
      else if CHAPTER_WEEKLY_SUBMIT_LIMIT ≤ wCount then
        (.error (429, "本篇本週已達 " ++ toString CHAPTER_WEEKLY_SUBMIT_LIMIT ++
          " 次提交上限，請下週再試。"), tr1)
      else
        match env.corpus order with
        | none =>
            (.error (404, "提交失敗：未找到順序號為 " ++ toString order ++
              " 的篇目數據。"), tr1)
        | some entry =>
            (.ok (entry.questions.enum.map (fun iq =>
              { id := "chapter-" ++ toString entry.order ++ "-q" ++ toString iq.1,
                question := iq.2.1, answer := iq.2.2,
                sourceTitle := some entry.title, sourceAuthor := entry.author,
                sourceCategory := some entry.category,
                sourceOrder := some entry.order })), tr1)

/-- Source `updateScopedStats` (line 520): read-accumulate-write of one
stats cell (additive points/attempts, one-decimal-rounded accumulated total
score). -/
def updateScopedStats (st : Store) (scope : LeaderboardScope)
    (period userId username : String) (pointsAwarded : ℤ) (totalScore : ℚ)
    (now : ℕ) : UserStats × Store :=
  let key : SKey := (scope, period, userId)
  let current := st.stats key
  let nextStats : UserStats :=
    { userId := userId, username := username,
      points := (current.map (·.points)).getD 0 + pointsAwarded,
      attempts := (current.map (·.attempts)).getD 0 + 1,
      totalScore :=
        ((roundJs ((((current.map (·.totalScore)).getD 0) + totalScore) * 10) : ℚ)) / 10,
      updatedAt := now }
  (nextStats, st.putStats key nextStats)

/-- Chapter attempt-counter increments of the commit stage (lines 1838–1843):
run only for chapter challenges whose counter keys were recorded during
resolution. -/
def applyChapterCounters (env : SubmitEnv) (ck : Bool) (info : Option (ℤ × ℤ × ℤ))
    (st : Store) : Store :=
  if ck = chapterChallenge then
    match info with
    | some i =>
        ((st.putChapterAttempt (CScope.daily, env.dailyKey, env.userId, i.1)
            (some (i.2.1 + 1))).putChapterAttempt
          (CScope.weekly, env.weeklyKey, env.userId, i.1) (some (i.2.2 + 1)))
    | none => st
  else st

/-- Commit stage (lines 1816–1852): fingerprint finalization, GaoKao set
deletion (fallible, rethrown as a generic 500), the three stats updates
(fallible), chapter attempt-counter increments, best-effort leaderboard
version bump, and the cooldown write that ends the success path. -/
def commitStage (env : SubmitEnv) (o : Oracle) (ck : Bool) (ident : String)
    (totalScore scoreTarget : ℚ) (n : ℕ) (st : Store) (tr : RunTrace) :
    Except (ℕ × String) (ℤ × UserStats × UserStats × UserStats) × Store × RunTrace :=
  let pointsAwarded := calculatePointsAwarded env.sqrtFn totalScore scoreTarget n
  let fpStep : Store × RunTrace :=
    match tr.imageFingerprintKey with
    | some fpk =>
        (st.putFingerprint fpk (toString env.now),
         { tr with imageFingerprintFinalized := true })
    | none => (st, tr)
  let st1 := fpStep.1
  let tr1 := fpStep.2
  if ck = gaokaoChallenge ∧ ¬ o.gaokaoDeleteOk then
    (.error (500, "伺服器內部錯誤 (500)，請稍後再試或聯繫管理員。"), st1, tr1)
  else
    let st2 := if ck = gaokaoChallenge then st1.delGaokaoSet ident else st1
    if ¬ o.statsOk then
      (.error (500, "伺服器內部錯誤 (500)，請稍後再試或聯繫管理員。"), st2, tr1)
    else
      let u1 := updateScopedStats st2 .total "all" env.userId env.username
        pointsAwarded totalScore env.now
      let u2 := updateScopedStats u1.2 .weekly env.weeklyKey env.userId env.username
        pointsAwarded totalScore env.now
      let u3 := updateScopedStats u2.2 .daily env.dailyKey env.userId env.username
        pointsAwarded totalScore env.now
      let tr2 := { tr1 with scoreCommitted := true }
      let st3 := applyChapterCounters env ck tr2.chapterInfo u3.2
      let st4 := if o.leaderboardOk then st3.bumpVersion else st3
      let st5 := st4.putCooldown env.userId (toString env.now)
      (.ok (pointsAwarded, u1.1, u2.1, u3.1), st5, tr2)

/-- Commit plus success-response assembly (lines 1816–1875): the commit
stage runs; its failure becomes the request's error response, its success
the final scored response. -/
def runCommitAndRespond (env : SubmitEnv) (o : Oracle) (ck : Bool) (ident : String)
    (totalScore scoreTarget : ℚ) (n : ℕ) (results : List SubmissionResult)
    (finalMessage feedback : String) (ocrIssue feedbackIssue : Option String)
    (st : Store) (tr : RunTrace) : Outcome × Store × RunTrace :=
  match commitStage env o ck ident totalScore scoreTarget n st tr with
  | (.error e, st5, tr5) => (.err e.1 e.2, st5, tr5)
  | (.ok res, st5, tr5) =>
      (.ok { message := finalMessage, totalScore := totalScore,
             scoreTarget := scoreTarget, results := results,
             feedback := feedback, ocrIssue := ocrIssue,
             feedbackIssue := feedbackIssue, pointsAwarded := res.1,
             totalStats := res.2.1, weeklyStats := res.2.2.1,
             dailyStats := res.2.2.2 }, st5, tr5)

/-- Pipeline tail after challenge resolution (lines 1537–1875): question
sanity check, duplicate-fingerprint guard and pending reservation, R2 image
write, OCR, scoring, feedback, commit, and success-response assembly. -/
def afterResolve (env : SubmitEnv) (o : Oracle) (ck : Bool) (ident : String)
    (image : ImageFile) (questionsToScore : List QuestionInfo) (st : Store)
    (tr : RunTrace) : Outcome × Store × RunTrace :=
  if questionsToScore.length = 0 then
    (.err 500 "內部錯誤：未能加載到任何題目信息。", st, tr)
  else
    let correctAnswers := questionsToScore.map (·.answer)
    let questionIds := questionsToScore.map (·.id)
    let n := questionsToScore.length
    let fpk := (env.userId, image.fingerprint)
    match st.fingerprints fpk with
    | some _ => (.err 409 "檢測到重複提交同一張圖片，請更換作答後再提交。", st, tr)
    | none =>
        let st1 := st.putFingerprint fpk ("pending:" ++ toString env.now)
        let tr1 := { tr with imageFingerprintKey := some fpk,
                             imageFingerprintReserved := true }
        let r2k := env.freshR2Key
        let tr2 := { tr1 with r2Key := some r2k, r2Puts := tr1.r2Puts ++ [r2k] }
        if ¬ o.r2PutOk then
          (.err 500 "圖片存儲失敗: Unknown R2 error", st1, tr2)
        else
          let st2 := st1.putR2 r2k image
          let tr3 := { tr2 with aiCalls := tr2.aiCalls + 1 }
          let ocrOut := runOcr o.ocr n
          let scored := scoreAll ocrOut.1 correctAnswers questionIds n
          let results := scored.1
          let totalScore := scored.2
          let scoreTarget : ℚ := (getScoreTarget n : ℚ)
          let errorDetails := buildErrorDetails results
          let fb := feedbackStage o.feedbackCall totalScore scoreTarget errorDetails
          let tr4 := { tr3 with aiCalls := tr3.aiCalls + (if fb.2.2.2 then 1 else 0) }
          let finalMessage := buildFinalMessage ocrOut.2 fb.2.1 fb.2.2.1
          runCommitAndRespond env o ck ident totalScore scoreTarget n results
            finalMessage fb.1 ocrOut.2 fb.2.1 st2 tr4

/-- The `try` block of the submit route (lines 1425–1875). -/
def submitBody (env : SubmitEnv) (o : Oracle) (req : SubmitRequest) (st : Store) :
    Outcome × Store × RunTrace :=
  match validateRequest req with
  | .error e => (.err e.1 e.2, st, {})
  | .ok v =>
      let tr0 : RunTrace := { challenge := some v.1 }
      if v.1 = gaokaoChallenge then
        match resolveGaokaoStage env o v.2.1 st tr0 with
        | (.error e, st1, tr1) => (.err e.1 e.2, st1, tr1)
        | (.ok qs, st1, tr1) => afterResolve env o v.1 v.2.1 v.2.2 qs st1 tr1
      else
        match resolveChapterStage env v.2.1 st tr0 with
        | (.error e, tr1) => (.err e.1 e.2, st, tr1)
        | (.ok qs, tr1) => afterResolve env o v.1 v.2.1 v.2.2 qs st tr1

/-- The `finally` block (lines 1876–1897): compensating deletes when the
commit never happened, then unconditional release of the submit lock and of
the per-set lock when one was acquired. -/
def finallyCleanup (env : SubmitEnv) (st : Store) (tr : RunTrace) : Store :=
  let st1 :=
    if tr.scoreCommitted then st
    else
      let stA :=
        match tr.imageFingerprintKey with
        | some fpk =>
            if tr.imageFingerprintReserved ∧ ¬ tr.imageFingerprintFinalized then
              st.delFingerprint fpk
            else st
        | none => st
      match tr.r2Key with
      | some k => stA.delR2 k
      | none => stA
  let st2 := st1.delSubmitLock env.userId
  match tr.gaokaoSetLockKey with
  | some k => st2.delGaokaoSetLock k
  | none => st2

/-- Full `POST /api/submit` handler for an authenticated request: admission
control (submit lock, cooldown, lock acquisition, lines 1403–1413), the
`try` body and the `finally` cleanup. -/
def handleSubmit (env : SubmitEnv) (o : Oracle) (req : SubmitRequest) (st : Store) :
    Outcome × Store × RunTrace :=
  match st.submitLock env.userId with
  | some _ => (.err 429 "上一份作答仍在處理中，請稍候。", st, {})
  | none =>
      match st.submitCooldown env.userId with
      | some _ => (.err 429 "提交過於頻繁，請稍後再試。", st, {})
      | none =>
          let st1 := st.putSubmitLock env.userId (toString env.now)
          let body := submitBody env o req st1
          (body.1, finallyCleanup env body.2.1 body.2.2, body.2.2)

/-! ## Concrete scenarios used by witnesses and counterexamples -/

/-- Empty KV/R2 state. -/
def emptyStore : Store :=
  { submitLock := fun _ => none, submitCooldown := fun _ => none,
    gaokaoSetLock := fun _ => none, gaokaoSets := fun _ => none,
    chapterAttempt := fun _ => none, fingerprints := fun _ => none,
    stats := fun _ => none, r2 := fun _ => none, leaderboardVersion := 0 }

def envA : SubmitEnv :=
  { userId := "alice", username := "Alice", now := 1000,
    dailyKey := "2026-10-11", weeklyKey := "2026-W41", freshR2Key := "r2-1",
    corpus := fun _ => none, sqrtFn := fun _ => 1 / 2 }

def qsetA : QuestionSet :=
  { setId := "set1", questions := [{ id := "q1", question := "x", answer := "月" }],
    createdAt := 0, ownerUserId := "alice" }

def storeA : Store :=
  { emptyStore with gaokaoSets := fun k => if k = "set1" then some qsetA else none }

def imgA : ImageFile := { size := 100, contentType := "image/png", fingerprint := "fp1" }

def oracleA : Oracle :=
  { gaokaoGetOk := true, r2PutOk := true,
    ocr := .ok { candidates := [{ finishReason := some "STOP", parts := [.text "月"] }],
                 error := none },
    feedbackCall := .ok { candidates := [], error := none },
    gaokaoDeleteOk := true, statsOk := true, leaderboardOk := true }

def reqA : SubmitRequest :=
  { setId := .str "set1", chapterOrder := .missing, handwritingImage := .file imgA }

def oracleDelFail : Oracle := { oracleA with gaokaoDeleteOk := false }

def reqBoth : SubmitRequest := { reqA with chapterOrder := .str "3" }

def oracleFbFail : Oracle :=
  { oracleA with
    ocr := .ok { candidates := [{ finishReason := some "STOP", parts := [.text "日"] }],
                 error := none },
    feedbackCall := .threw "boom" }

def reqChapter : SubmitRequest :=
  { setId := .missing, chapterOrder := .str "3", handwritingImage := .file imgA }

def storeQuota : Store :=
  { emptyStore with chapterAttempt := fun k =>
      if k = (CScope.daily, "2026-10-11", "alice", (3 : ℤ)) then some (some 2) else none }

def dummyStats : UserStats :=
  { userId := "", username := "", points := 0, attempts := 0, totalScore := 0,
    updatedAt := 0 }

def dummyResp : SubmitResponse :=
  { message := "", totalScore := 0, scoreTarget := 0, results := [], feedback := "",
    ocrIssue := none, feedbackIssue := none, pointsAwarded := 0,
    totalStats := dummyStats, weeklyStats := dummyStats, dailyStats := dummyStats }

/-- Projection of a known-successful outcome onto its response. -/
def forceOk : Outcome → SubmitResponse
  | .ok r => r
  | .err _ _ => dummyResp

def statsZero : UserStats :=
  { userId := "u", username := "u", points := 0, attempts := 0, totalScore := 0,
    updatedAt := 0 }

def statsTwo : UserStats :=
  { userId := "u", username := "u", points := 7, attempts := 2, totalScore := 3,
    updatedAt := 0 }

theorem roundJs_intCast (m : ℤ) : roundJs (m : ℚ) = m := by
  unfold roundJs
  rw [Int.floor_eq_iff]
  refine ⟨le_add_of_nonneg_right (by norm_num), ?_⟩
  linarith

theorem roundJs_nonneg {q : ℚ} (h : 0 ≤ q) : 0 ≤ roundJs q := by
  unfold roundJs
  rw [Int.le_floor]
  exact_mod_cast (by linarith : (0 : ℚ) ≤ q + 1 / 2)

theorem roundJs_sub_le (q : ℚ) : |((roundJs q : ℚ)) - q| ≤ 1 / 2 := by
  unfold roundJs
  have h1 : ((⌊q + 1 / 2⌋ : ℤ) : ℚ) ≤ q + 1 / 2 := Int.floor_le _
  have h2 : q + 1 / 2 - 1 < ((⌊q + 1 / 2⌋ : ℤ) : ℚ) := Int.sub_one_lt_floor _
  rw [abs_le]
  constructor <;> linarith

theorem string_append_ne_empty {a : String} (b : String) (ha : a ≠ "") :
    a ++ b ≠ "" := by
  intro h
  apply ha
  have hd := congrArg String.data h
  rw [String.data_append] at hd
  rcases List.append_eq_nil.mp hd with ⟨h1, _⟩
  cases a
  exact congrArg String.mk h1

theorem fallbackFeedback_ne_empty (ts tgt : ℚ) (ed : String) :
    fallbackFeedback ts tgt ed ≠ "" := by
  unfold fallbackFeedback
  apply string_append_ne_empty
  apply string_append_ne_empty
  apply string_append_ne_empty
  apply string_append_ne_empty
  apply string_append_ne_empty
  decide

theorem extractFeedbackText_some_ne_empty {resp : GeminiApiResponse} {gt : String}
    (h : (extractFeedbackText resp).1 = some gt) : gt ≠ "" := by
  unfold extractFeedbackText at h
  repeat' split at h
  all_goals simp_all

theorem feedbackStage_feedback_ne_empty (call : GeminiCallResult) (ts tgt : ℚ)
    (ed : String) : (feedbackStage call ts tgt ed).1 ≠ "" := by
  unfold feedbackStage
  split
  · apply string_append_ne_empty
    apply string_append_ne_empty
    decide
  · split
    · exact fallbackFeedback_ne_empty _ _ _
    · rename_i resp
      rcases hx : (extractFeedbackText resp).1 with _ | gt
      · simp only [hx]
        exact fallbackFeedback_ne_empty _ _ _
      · have hgt : gt ≠ "" := extractFeedbackText_some_ne_empty hx
        simp only [hx]
        split
        · exact string_append_ne_empty _
            (string_append_ne_empty _ (string_append_ne_empty _ hgt))
        · exact hgt

@[simp] theorem putSubmitLock_submitLock (st : Store) (u v k : String) :
    (st.putSubmitLock u v).submitLock k = if k = u then some v else st.submitLock k := rfl
@[simp] theorem putSubmitLock_submitCooldown (st : Store) (u v : String) :
    (st.putSubmitLock u v).submitCooldown = st.submitCooldown := rfl
@[simp] theorem putSubmitLock_gaokaoSetLock (st : Store) (u v : String) :
    (st.putSubmitLock u v).gaokaoSetLock = st.gaokaoSetLock := rfl
@[simp] theorem putSubmitLock_gaokaoSets (st : Store) (u v : String) :
    (st.putSubmitLock u v).gaokaoSets = st.gaokaoSets := rfl
@[simp] theorem putSubmitLock_fingerprints (st : Store) (u v : String) :
    (st.putSubmitLock u v).fingerprints = st.fingerprints := rfl
@[simp] theorem putSubmitLock_r2 (st : Store) (u v : String) :
    (st.putSubmitLock u v).r2 = st.r2 := rfl
@[simp] theorem putSubmitLock_chapterAttempt (st : Store) (u v : String) :
    (st.putSubmitLock u v).chapterAttempt = st.chapterAttempt := rfl
@[simp] theorem putSubmitLock_stats (st : Store) (u v : String) :
    (st.putSubmitLock u v).stats = st.stats := rfl

@[simp] theorem delSubmitLock_submitLock (st : Store) (u k : String) :
    (st.delSubmitLock u).submitLock k = if k = u then none else st.submitLock k := rfl
@[simp] theorem delSubmitLock_submitCooldown (st : Store) (u : String) :
    (st.delSubmitLock u).submitCooldown = st.submitCooldown := rfl
@[simp] theorem delSubmitLock_gaokaoSetLock (st : Store) (u : String) :
    (st.delSubmitLock u).gaokaoSetLock = st.gaokaoSetLock := rfl
@[simp] theorem delSubmitLock_gaokaoSets (st : Store) (u : String) :
    (st.delSubmitLock u).gaokaoSets = st.gaokaoSets := rfl
@[simp] theorem delSubmitLock_fingerprints (st : Store) (u : String) :
    (st.delSubmitLock u).fingerprints = st.fingerprints := rfl
@[simp] theorem delSubmitLock_r2 (st : Store) (u : String) :
    (st.delSubmitLock u).r2 = st.r2 := rfl

@[simp] theorem putCooldown_submitCooldown (st : Store) (u v k : String) :
    (st.putCooldown u v).submitCooldown k = if k = u then some v else st.submitCooldown k := rfl
@[simp] theorem putCooldown_submitLock (st : Store) (u v : String) :
    (st.putCooldown u v).submitLock = st.submitLock := rfl
@[simp] theorem putCooldown_gaokaoSetLock (st : Store) (u v : String) :
    (st.putCooldown u v).gaokaoSetLock = st.gaokaoSetLock := rfl
@[simp] theorem putCooldown_gaokaoSets (st : Store) (u v : String) :
    (st.putCooldown u v).gaokaoSets = st.gaokaoSets := rfl
@[simp] theorem putCooldown_fingerprints (st : Store) (u v : String) :
    (st.putCooldown u v).fingerprints = st.fingerprints := rfl
@[simp] theorem putCooldown_r2 (st : Store) (u v : String) :
    (st.putCooldown u v).r2 = st.r2 := rfl

@[simp] theorem putGaokaoSetLock_gaokaoSetLock (st : Store) (s v k : String) :
    (st.putGaokaoSetLock s v).gaokaoSetLock k = if k = s then some v else st.gaokaoSetLock k := rfl
@[simp] theorem putGaokaoSetLock_submitLock (st : Store) (s v : String) :
    (st.putGaokaoSetLock s v).submitLock = st.submitLock := rfl
@[simp] theorem putGaokaoSetLock_submitCooldown (st : Store) (s v : String) :
    (st.putGaokaoSetLock s v).submitCooldown = st.submitCooldown := rfl
@[simp] theorem putGaokaoSetLock_gaokaoSets (st : Store) (s v : String) :
    (st.putGaokaoSetLock s v).gaokaoSets = st.gaokaoSets := rfl
@[simp] theorem putGaokaoSetLock_fingerprints (st : Store) (s v : String) :
    (st.putGaokaoSetLock s v).fingerprints = st.fingerprints := rfl
@[simp] theorem putGaokaoSetLock_r2 (st : Store) (s v : String) :
    (st.putGaokaoSetLock s v).r2 = st.r2 := rfl
@[simp] theorem putGaokaoSetLock_chapterAttempt (st : Store) (s v : String) :
    (st.putGaokaoSetLock s v).chapterAttempt = st.chapterAttempt := rfl
@[simp] theorem putGaokaoSetLock_stats (st : Store) (s v : String) :
    (st.putGaokaoSetLock s v).stats = st.stats := rfl

@[simp] theorem delGaokaoSetLock_gaokaoSetLock (st : Store) (s k : String) :
    (st.delGaokaoSetLock s).gaokaoSetLock k = if k = s then none else st.gaokaoSetLock k := rfl
@[simp] theorem delGaokaoSetLock_submitLock (st : Store) (s : String) :
    (st.delGaokaoSetLock s).submitLock = st.submitLock := rfl
@[simp] theorem delGaokaoSetLock_submitCooldown (st : Store) (s : String) :
    (st.delGaokaoSetLock s).submitCooldown = st.submitCooldown := rfl
@[simp] theorem delGaokaoSetLock_gaokaoSets (st : Store) (s : String) :
    (st.delGaokaoSetLock s).gaokaoSets = st.gaokaoSets := rfl
@[simp] theorem delGaokaoSetLock_fingerprints (st : Store) (s : String) :
    (st.delGaokaoSetLock s).fingerprints = st.fingerprints := rfl
@[simp] theorem delGaokaoSetLock_r2 (st : Store) (s : String) :
    (st.delGaokaoSetLock s).r2 = st.r2 := rfl

@[simp] theorem delGaokaoSet_gaokaoSets (st : Store) (s k : String) :
    (st.delGaokaoSet s).gaokaoSets k = if k = s then none else st.gaokaoSets k := rfl
@[simp] theorem delGaokaoSet_submitLock (st : Store) (s : String) :
    (st.delGaokaoSet s).submitLock = st.submitLock := rfl
@[simp] theorem delGaokaoSet_submitCooldown (st : Store) (s : String) :
    (st.delGaokaoSet s).submitCooldown = st.submitCooldown := rfl
@[simp] theorem delGaokaoSet_gaokaoSetLock (st : Store) (s : String) :
    (st.delGaokaoSet s).gaokaoSetLock = st.gaokaoSetLock := rfl
@[simp] theorem delGaokaoSet_fingerprints (st : Store) (s : String) :
    (st.delGaokaoSet s).fingerprints = st.fingerprints := rfl
@[simp] theorem delGaokaoSet_r2 (st : Store) (s : String) :
    (st.delGaokaoSet s).r2 = st.r2 := rfl

@[simp] theorem putChapterAttempt_chapterAttempt (st : Store) (ck : CKey) (v : Option ℤ)
    (k : CKey) : (st.putChapterAttempt ck v).chapterAttempt k =
      if k = ck then some v else st.chapterAttempt k := rfl
@[simp] theorem putChapterAttempt_submitLock (st : Store) (ck : CKey) (v : Option ℤ) :
    (st.putChapterAttempt ck v).submitLock = st.submitLock := rfl
@[simp] theorem putChapterAttempt_submitCooldown (st : Store) (ck : CKey) (v : Option ℤ) :
    (st.putChapterAttempt ck v).submitCooldown = st.submitCooldown := rfl
@[simp] theorem putChapterAttempt_gaokaoSetLock (st : Store) (ck : CKey) (v : Option ℤ) :
    (st.putChapterAttempt ck v).gaokaoSetLock = st.gaokaoSetLock := rfl
@[simp] theorem putChapterAttempt_gaokaoSets (st : Store) (ck : CKey) (v : Option ℤ) :
    (st.putChapterAttempt ck v).gaokaoSets = st.gaokaoSets := rfl
@[simp] theorem putChapterAttempt_fingerprints (st : Store) (ck : CKey) (v : Option ℤ) :
    (st.putChapterAttempt ck v).fingerprints = st.fingerprints := rfl
@[simp] theorem putChapterAttempt_r2 (st : Store) (ck : CKey) (v : Option ℤ) :
    (st.putChapterAttempt ck v).r2 = st.r2 := rfl

@[simp] theorem putFingerprint_fingerprints (st : Store) (fk : String × String)
    (v : String) (k : String × String) : (st.putFingerprint fk v).fingerprints k =
      if k = fk then some v else st.fingerprints k := rfl
@[simp] theorem putFingerprint_submitLock (st : Store) (fk : String × String) (v : String) :
    (st.putFingerprint fk v).submitLock = st.submitLock := rfl
@[simp] theorem putFingerprint_submitCooldown (st : Store) (fk : String × String) (v : String) :
    (st.putFingerprint fk v).submitCooldown = st.submitCooldown := rfl
@[simp] theorem putFingerprint_gaokaoSetLock (st : Store) (fk : String × String) (v : String) :
    (st.putFingerprint fk v).gaokaoSetLock = st.gaokaoSetLock := rfl
@[simp] theorem putFingerprint_gaokaoSets (st : Store) (fk : String × String) (v : String) :
    (st.putFingerprint fk v).gaokaoSets = st.gaokaoSets := rfl
@[simp] theorem putFingerprint_r2 (st : Store) (fk : String × String) (v : String) :
    (st.putFingerprint fk v).r2 = st.r2 := rfl
@[simp] theorem putFingerprint_chapterAttempt (st : Store) (fk : String × String) (v : String) :
    (st.putFingerprint fk v).chapterAttempt = st.chapterAttempt := rfl
@[simp] theorem putFingerprint_stats (st : Store) (fk : String × String) (v : String) :
    (st.putFingerprint fk v).stats = st.stats := rfl

@[simp] theorem delFingerprint_fingerprints (st : Store) (fk : String × String)
    (k : String × String) : (st.delFingerprint fk).fingerprints k =
      if k = fk then none else st.fingerprints k := rfl
@[simp] theorem delFingerprint_submitLock (st : Store) (fk : String × String) :
    (st.delFingerprint fk).submitLock = st.submitLock := rfl
@[simp] theorem delFingerprint_submitCooldown (st : Store) (fk : String × String) :
    (st.delFingerprint fk).submitCooldown = st.submitCooldown := rfl
@[simp] theorem delFingerprint_gaokaoSetLock (st : Store) (fk : String × String) :
    (st.delFingerprint fk).gaokaoSetLock = st.gaokaoSetLock := rfl
@[simp] theorem delFingerprint_gaokaoSets (st : Store) (fk : String × String) :
    (st.delFingerprint fk).gaokaoSets = st.gaokaoSets := rfl
@[simp] theorem delFingerprint_r2 (st : Store) (fk : String × String) :
    (st.delFingerprint fk).r2 = st.r2 := rfl

@[simp] theorem putStats_stats (st : Store) (sk : SKey) (v : UserStats) (k : SKey) :
    (st.putStats sk v).stats k = if k = sk then some v else st.stats k := rfl
@[simp] theorem putStats_submitLock (st : Store) (sk : SKey) (v : UserStats) :
    (st.putStats sk v).submitLock = st.submitLock := rfl
@[simp] theorem putStats_submitCooldown (st : Store) (sk : SKey) (v : UserStats) :
    (st.putStats sk v).submitCooldown = st.submitCooldown := rfl
@[simp] theorem putStats_gaokaoSetLock (st : Store) (sk : SKey) (v : UserStats) :
    (st.putStats sk v).gaokaoSetLock = st.gaokaoSetLock := rfl
@[simp] theorem putStats_gaokaoSets (st : Store) (sk : SKey) (v : UserStats) :
    (st.putStats sk v).gaokaoSets = st.gaokaoSets := rfl
@[simp] theorem putStats_fingerprints (st : Store) (sk : SKey) (v : UserStats) :
    (st.putStats sk v).fingerprints = st.fingerprints := rfl
@[simp] theorem putStats_r2 (st : Store) (sk : SKey) (v : UserStats) :
    (st.putStats sk v).r2 = st.r2 := rfl

@[simp] theorem putR2_r2 (st : Store) (key : String) (blob : ImageFile) (k : String) :
    (st.putR2 key blob).r2 k = if k = key then some blob else st.r2 k := rfl
@[simp] theorem putR2_submitLock (st : Store) (key : String) (blob : ImageFile) :
    (st.putR2 key blob).submitLock = st.submitLock := rfl
@[simp] theorem putR2_submitCooldown (st : Store) (key : String) (blob : ImageFile) :
    (st.putR2 key blob).submitCooldown = st.submitCooldown := rfl
@[simp] theorem putR2_gaokaoSetLock (st : Store) (key : String) (blob : ImageFile) :
    (st.putR2 key blob).gaokaoSetLock = st.gaokaoSetLock := rfl
@[simp] theorem putR2_gaokaoSets (st : Store) (key : String) (blob : ImageFile) :
    (st.putR2 key blob).gaokaoSets = st.gaokaoSets := rfl
@[simp] theorem putR2_fingerprints (st : Store) (key : String) (blob : ImageFile) :
    (st.putR2 key blob).fingerprints = st.fingerprints := rfl

@[simp] theorem delR2_r2 (st : Store) (key k : String) :
    (st.delR2 key).r2 k = if k = key then none else st.r2 k := rfl
@[simp] theorem delR2_submitLock (st : Store) (key : String) :
    (st.delR2 key).submitLock = st.submitLock := rfl
@[simp] theorem delR2_submitCooldown (st : Store) (key : String) :
    (st.delR2 key).submitCooldown = st.submitCooldown := rfl
@[simp] theorem delR2_gaokaoSetLock (st : Store) (key : String) :
    (st.delR2 key).gaokaoSetLock = st.gaokaoSetLock := rfl
@[simp] theorem delR2_gaokaoSets (st : Store) (key : String) :
    (st.delR2 key).gaokaoSets = st.gaokaoSets := rfl
@[simp] theorem delR2_fingerprints (st : Store) (key : String) :
    (st.delR2 key).fingerprints = st.fingerprints := rfl

@[simp] theorem bumpVersion_submitLock (st : Store) :
    st.bumpVersion.submitLock = st.submitLock := rfl
@[simp] theorem bumpVersion_submitCooldown (st : Store) :
    st.bumpVersion.submitCooldown = st.submitCooldown := rfl
@[simp] theorem bumpVersion_gaokaoSetLock (st : Store) :
    st.bumpVersion.gaokaoSetLock = st.gaokaoSetLock := rfl
@[simp] theorem bumpVersion_gaokaoSets (st : Store) :
    st.bumpVersion.gaokaoSets = st.gaokaoSets := rfl
@[simp] theorem bumpVersion_fingerprints (st : Store) :
    st.bumpVersion.fingerprints = st.fingerprints := rfl
@[simp] theorem bumpVersion_r2 (st : Store) :
    st.bumpVersion.r2 = st.r2 := rfl

@[simp] theorem updateScopedStats_submitLock (st : Store) (sc : LeaderboardScope)
    (p u un : String) (pa : ℤ) (ts : ℚ) (now : ℕ) :
    (updateScopedStats st sc p u un pa ts now).2.submitLock = st.submitLock := rfl
@[simp] theorem updateScopedStats_submitCooldown (st : Store) (sc : LeaderboardScope)
    (p u un : String) (pa : ℤ) (ts : ℚ) (now : ℕ) :
    (updateScopedStats st sc p u un pa ts now).2.submitCooldown = st.submitCooldown := rfl
@[simp] theorem updateScopedStats_gaokaoSetLock (st : Store) (sc : LeaderboardScope)
    (p u un : String) (pa : ℤ) (ts : ℚ) (now : ℕ) :
    (updateScopedStats st sc p u un pa ts now).2.gaokaoSetLock = st.gaokaoSetLock := rfl
@[simp] theorem updateScopedStats_gaokaoSets (st : Store) (sc : LeaderboardScope)
    (p u un : String) (pa : ℤ) (ts : ℚ) (now : ℕ) :
    (updateScopedStats st sc p u un pa ts now).2.gaokaoSets = st.gaokaoSets := rfl
@[simp] theorem updateScopedStats_fingerprints (st : Store) (sc : LeaderboardScope)
    (p u un : String) (pa : ℤ) (ts : ℚ) (now : ℕ) :
    (updateScopedStats st sc p u un pa ts now).2.fingerprints = st.fingerprints := rfl
@[simp] theorem updateScopedStats_r2 (st : Store) (sc : LeaderboardScope)
    (p u un : String) (pa : ℤ) (ts : ℚ) (now : ℕ) :
    (updateScopedStats st sc p u un pa ts now).2.r2 = st.r2 := rfl

@[simp] theorem applyChapterCounters_submitLock (env : SubmitEnv) (ck : Bool)
    (info : Option (ℤ × ℤ × ℤ)) (st : Store) :
    (applyChapterCounters env ck info st).submitLock = st.submitLock := by
  unfold applyChapterCounters
  repeat' split
  all_goals simp
@[simp] theorem applyChapterCounters_submitCooldown (env : SubmitEnv) (ck : Bool)
    (info : Option (ℤ × ℤ × ℤ)) (st : Store) :
    (applyChapterCounters env ck info st).submitCooldown = st.submitCooldown := by
  unfold applyChapterCounters
  repeat' split
  all_goals simp
@[simp] theorem applyChapterCounters_gaokaoSetLock (env : SubmitEnv) (ck : Bool)
    (info : Option (ℤ × ℤ × ℤ)) (st : Store) :
    (applyChapterCounters env ck info st).gaokaoSetLock = st.gaokaoSetLock := by
  unfold applyChapterCounters
  repeat' split
  all_goals simp
@[simp] theorem applyChapterCounters_gaokaoSets (env : SubmitEnv) (ck : Bool)
    (info : Option (ℤ × ℤ × ℤ)) (st : Store) :
    (applyChapterCounters env ck info st).gaokaoSets = st.gaokaoSets := by
  unfold applyChapterCounters
  repeat' split
  all_goals simp
@[simp] theorem applyChapterCounters_fingerprints (env : SubmitEnv) (ck : Bool)
    (info : Option (ℤ × ℤ × ℤ)) (st : Store) :
    (applyChapterCounters env ck info st).fingerprints = st.fingerprints := by
  unfold applyChapterCounters
  repeat' split
  all_goals simp
@[simp] theorem applyChapterCounters_r2 (env : SubmitEnv) (ck : Bool)
    (info : Option (ℤ × ℤ × ℤ)) (st : Store) :
    (applyChapterCounters env ck info st).r2 = st.r2 := by
  unfold applyChapterCounters
  repeat' split
  all_goals simp

theorem commitStage_spec (env : SubmitEnv) (o : Oracle) (ck : Bool) (ident : String)
    (ts tgt : ℚ) (n : ℕ) (st : Store) (tr : RunTrace) :
    ∀ res st' tr', commitStage env o ck ident ts tgt n st tr = (res, st', tr') →
      st'.r2 = st.r2 ∧ st'.submitLock = st.submitLock ∧
      st'.gaokaoSetLock = st.gaokaoSetLock ∧
      tr'.r2Key = tr.r2Key ∧ tr'.gaokaoSetLockKey = tr.gaokaoSetLockKey ∧
      tr'.imageFingerprintKey = tr.imageFingerprintKey ∧
      tr'.imageFingerprintReserved = tr.imageFingerprintReserved ∧
      (∀ e, res = .error e → tr'.scoreCommitted = tr.scoreCommitted ∧
        st'.submitCooldown = st.submitCooldown) ∧
      (∀ v, res = .ok v → tr'.scoreCommitted = true ∧
        st'.submitCooldown env.userId = some (toString env.now) ∧
        (ck = gaokaoChallenge → st'.gaokaoSets ident = none) ∧
        (∀ fpk, tr.imageFingerprintKey = some fpk →
          st'.fingerprints fpk = some (toString env.now))) := by
  intro res st' tr' h
  unfold commitStage at h
  repeat' split at h
  all_goals
    simp only [Prod.mk.injEq] at h
    obtain ⟨rfl, rfl, rfl⟩ := h
    refine ⟨by simp, by simp, by simp, rfl, rfl, rfl, rfl, ?_, ?_⟩
    · intro e he
      first
        | exact Except.noConfusion he
        | exact ⟨rfl, by simp⟩
    · intro v hv
      first
        | exact Except.noConfusion hv
        | refine ⟨rfl, by simp, ?_, ?_⟩
          · intro hck
            simp_all
          · intro fpk2 hfp2
            simp_all

theorem checkGaokaoSet_ok (env : SubmitEnv) (qsOpt : Option QuestionSet)
    (qs : List QuestionInfo) (h : checkGaokaoSet env qsOpt = .ok qs) :
    ∃ qset, qsOpt = some qset ∧ qs = qset.questions ∧
      qset.questions.length ≠ 0 ∧ qset.ownerUserId = env.userId ∧
      (qset.usedAt = none ∨ qset.usedAt = some 0) := by
  unfold checkGaokaoSet at h
  rcases qsOpt with _ | qset
  · exact Except.noConfusion h
  · dsimp only [] at h
    by_cases hlen : qset.questions.length = 0
    · rw [if_pos hlen] at h
      exact Except.noConfusion h
    · rw [if_neg hlen] at h
      by_cases hown : qset.ownerUserId = "" ∨ qset.ownerUserId ≠ env.userId
      · rw [if_pos hown] at h
        exact Except.noConfusion h
      · rw [if_neg hown] at h
        by_cases hused : usedAtTruthy qset.usedAt = true
        · rw [if_pos hused] at h
          exact Except.noConfusion h
        · rw [if_neg hused] at h
          cases h
          refine ⟨qset, rfl, rfl, hlen, ?_, ?_⟩
          · exact not_not.mp (not_or.mp hown).2
          · rcases hu : qset.usedAt with _ | t
            · exact Or.inl rfl
            · right
              rw [hu] at hused
              simp only [usedAtTruthy, bne_iff_ne, ne_eq, not_not] at hused
              rw [hused]

theorem resolveGaokaoStage_spec (env : SubmitEnv) (o : Oracle) (ident : String)
    (st : Store) (tr : RunTrace) :
    ∀ r st' tr', resolveGaokaoStage env o ident st tr = (r, st', tr') →
      st'.submitLock = st.submitLock ∧ st'.submitCooldown = st.submitCooldown ∧
      st'.gaokaoSets = st.gaokaoSets ∧ st'.fingerprints = st.fingerprints ∧
      st'.r2 = st.r2 ∧ st'.chapterAttempt = st.chapterAttempt ∧ st'.stats = st.stats ∧
      tr'.imageFingerprintKey = tr.imageFingerprintKey ∧
      tr'.imageFingerprintReserved = tr.imageFingerprintReserved ∧
      tr'.imageFingerprintFinalized = tr.imageFingerprintFinalized ∧
      tr'.r2Key = tr.r2Key ∧ tr'.scoreCommitted = tr.scoreCommitted ∧
      (∀ qs, r = .ok qs →
        ∃ qset, st.gaokaoSets ident = some qset ∧ qs = qset.questions ∧
          qset.questions.length ≠ 0 ∧ qset.ownerUserId = env.userId ∧
          (qset.usedAt = none ∨ qset.usedAt = some 0)) := by
  intro r st' tr' h
  unfold resolveGaokaoStage at h
  repeat' split at h
  all_goals
    simp only [Prod.mk.injEq] at h
    obtain ⟨rfl, rfl, rfl⟩ := h
    refine ⟨by simp, by simp, by simp, by simp, by simp, by simp, by simp,
      rfl, rfl, rfl, rfl, rfl, ?_⟩
    intro qs hqs
    first
      | exact Except.noConfusion hqs
      | exact checkGaokaoSet_ok env _ qs (by simpa using hqs)

theorem resolveChapterStage_spec (env : SubmitEnv) (ident : String) (st : Store)
    (tr : RunTrace) :
    ∀ r tr', resolveChapterStage env ident st tr = (r, tr') →
      tr'.imageFingerprintKey = tr.imageFingerprintKey ∧
      tr'.imageFingerprintReserved = tr.imageFingerprintReserved ∧
      tr'.imageFingerprintFinalized = tr.imageFingerprintFinalized ∧
      tr'.r2Key = tr.r2Key ∧ tr'.scoreCommitted = tr.scoreCommitted ∧
      tr'.gaokaoSetLockKey = tr.gaokaoSetLockKey := by
  intro r tr' h
  unfold resolveChapterStage at h
  rcases hp : parseIntJs ident with _ | order
  · rw [hp] at h
    dsimp only [] at h
    simp only [Prod.mk.injEq] at h
    obtain ⟨rfl, rfl⟩ := h
    exact ⟨rfl, rfl, rfl, rfl, rfl, rfl⟩
  · rw [hp] at h
    dsimp only [] at h
    by_cases hd : CHAPTER_DAILY_SUBMIT_LIMIT ≤ parseStoredCounter
        (st.chapterAttempt (CScope.daily, env.dailyKey, env.userId, order))
        CHAPTER_DAILY_SUBMIT_LIMIT
    · rw [if_pos hd] at h
      simp only [Prod.mk.injEq] at h
      obtain ⟨rfl, rfl⟩ := h
      exact ⟨rfl, rfl, rfl, rfl, rfl, rfl⟩
    · rw [if_neg hd] at h
      by_cases hw : CHAPTER_WEEKLY_SUBMIT_LIMIT ≤ parseStoredCounter
          (st.chapterAttempt (CScope.weekly, env.weeklyKey, env.userId, order))
          CHAPTER_WEEKLY_SUBMIT_LIMIT
      · rw [if_pos hw] at h
        simp only [Prod.mk.injEq] at h
        obtain ⟨rfl, rfl⟩ := h
        exact ⟨rfl, rfl, rfl, rfl, rfl, rfl⟩
      · rw [if_neg hw] at h
        rcases hc : env.corpus order with _ | entry <;> rw [hc] at h <;>
          dsimp only [] at h <;> simp only [Prod.mk.injEq] at h <;>
          obtain ⟨rfl, rfl⟩ := h <;> exact ⟨rfl, rfl, rfl, rfl, rfl, rfl⟩

theorem runCommitAndRespond_spec (env : SubmitEnv) (o : Oracle) (ck : Bool)
    (ident : String) (ts tgt : ℚ) (n : ℕ) (results : List SubmissionResult)
    (fm fb : String) (ocrI fbI : Option String) (st : Store) (tr : RunTrace) :
    ∀ out st' tr', runCommitAndRespond env o ck ident ts tgt n results fm fb
        ocrI fbI st tr = (out, st', tr') →
      st'.r2 = st.r2 ∧ st'.submitLock = st.submitLock ∧
      st'.gaokaoSetLock = st.gaokaoSetLock ∧
      tr'.r2Key = tr.r2Key ∧ tr'.gaokaoSetLockKey = tr.gaokaoSetLockKey ∧
      tr'.imageFingerprintKey = tr.imageFingerprintKey ∧
      tr'.imageFingerprintReserved = tr.imageFingerprintReserved ∧
      (out.isOk = false → tr'.scoreCommitted = tr.scoreCommitted ∧
        st'.submitCooldown = st.submitCooldown) ∧
      (out.isOk = true → tr'.scoreCommitted = true ∧
        st'.submitCooldown env.userId = some (toString env.now) ∧
        (ck = gaokaoChallenge → st'.gaokaoSets ident = none) ∧
        (∀ fpk, tr.imageFingerprintKey = some fpk →
          st'.fingerprints fpk = some (toString env.now))) ∧
      (∀ resp, out = .ok resp → resp.feedback = fb) := by
  intro out st' tr' h
  unfold runCommitAndRespond at h
  rcases hcm : commitStage env o ck ident ts tgt n st tr with ⟨res, st5, tr5⟩
  obtain ⟨hr2, hsl, hgl, hrk, hglk, hfk, hfr, herr, hok⟩ :=
    commitStage_spec env o ck ident ts tgt n st tr res st5 tr5 hcm
  rw [hcm] at h
  rcases res with e | v
  · dsimp only [] at h
    simp only [Prod.mk.injEq] at h
    obtain ⟨rfl, rfl, rfl⟩ := h
    obtain ⟨hsc, hcd⟩ := herr e rfl
    refine ⟨hr2, hsl, hgl, hrk, hglk, hfk, hfr, fun _ => ⟨hsc, hcd⟩, ?_, ?_⟩
    · intro hko
      simp [Outcome.isOk] at hko
    · intro resp hresp
      exact Outcome.noConfusion hresp
  · dsimp only [] at h
    simp only [Prod.mk.injEq] at h
    obtain ⟨rfl, rfl, rfl⟩ := h
    obtain ⟨hsc, hcd, hgs, hfp⟩ := hok v rfl
    refine ⟨hr2, hsl, hgl, hrk, hglk, hfk, hfr, ?_, ?_, ?_⟩
    · intro hko
      simp [Outcome.isOk] at hko
    · intro _
      exact ⟨hsc, hcd, hgs, hfp⟩
    · intro resp hresp
      cases hresp
      rfl

theorem afterResolve_spec (env : SubmitEnv) (o : Oracle) (ck : Bool) (ident : String)
    (image : ImageFile) (qs : List QuestionInfo) (st : Store) (tr : RunTrace)
    (htrk : tr.imageFingerprintKey = none) (htrc : tr.scoreCommitted = false) :
    ∀ out st' tr', afterResolve env o ck ident image qs st tr = (out, st', tr') →
      st'.submitLock = st.submitLock ∧ st'.gaokaoSetLock = st.gaokaoSetLock ∧
      tr'.gaokaoSetLockKey = tr.gaokaoSetLockKey ∧
      (out.isOk = false → tr'.scoreCommitted = false ∧
        st'.submitCooldown = st.submitCooldown) ∧
      (out.isOk = true → tr'.scoreCommitted = true ∧
        st'.submitCooldown env.userId = some (toString env.now) ∧
        (ck = gaokaoChallenge → st'.gaokaoSets ident = none) ∧
        (∀ fpk, tr'.imageFingerprintKey = some fpk →
          st'.fingerprints fpk = some (toString env.now)) ∧
        (∀ k, tr'.r2Key = some k → (st'.r2 k).isSome = true)) ∧
      (tr'.imageFingerprintKey = none ∨
        (tr'.imageFingerprintKey = some (env.userId, image.fingerprint) ∧
          tr'.imageFingerprintReserved = true)) ∧
      (∀ resp, out = .ok resp → resp.feedback ≠ "") := by
  intro out st' tr' h
  unfold afterResolve at h
  by_cases hlen : qs.length = 0
  · rw [if_pos hlen] at h
    simp only [Prod.mk.injEq] at h
    obtain ⟨rfl, rfl, rfl⟩ := h
    exact ⟨rfl, rfl, rfl, fun _ => ⟨htrc, rfl⟩,
      fun hko => by simp [Outcome.isOk] at hko, Or.inl htrk,
      fun resp hresp => Outcome.noConfusion hresp⟩
  · rw [if_neg hlen] at h
    dsimp only [] at h
    rcases hfp : st.fingerprints (env.userId, image.fingerprint) with _ | fv
    · rw [hfp] at h
      dsimp only [] at h
      by_cases hput : o.r2PutOk
      · rw [if_neg (by simpa using hput)] at h
        obtain ⟨hr2, hsl, hgl, hrk, hglk, hfk, hfr, herr, hok, hfbeq⟩ :=
          runCommitAndRespond_spec env o ck ident _ _ _ _ _ _ _ _ _ _
            out st' tr' h
        refine ⟨by simp [hsl], by simp [hgl], by simp [hglk], ?_, ?_, ?_, ?_⟩
        · intro hko
          obtain ⟨hsc, hcd⟩ := herr hko
          exact ⟨by simp [hsc, htrc], by simp [hcd]⟩
        · intro hko
          obtain ⟨hsc, hcd, hgs, hfpo⟩ := hok hko
          refine ⟨hsc, hcd, hgs, ?_, ?_⟩
          · intro fpk hfpk
            rw [hfk] at hfpk
            simp only [] at hfpk
            exact hfpo fpk (by simp [hfpk])
          · intro k hk
            rw [hrk] at hk
            simp only [Option.some.injEq] at hk
            subst hk
            rw [hr2]
            simp
        · rw [hfk, hfr]
          exact Or.inr ⟨rfl, rfl⟩
        · intro resp hresp
          rw [hfbeq resp hresp]
          exact feedbackStage_feedback_ne_empty _ _ _ _
      · rw [if_pos (by simpa using hput)] at h
        simp only [Prod.mk.injEq] at h
        obtain ⟨rfl, rfl, rfl⟩ := h
        exact ⟨by simp, by simp, rfl, fun _ => ⟨htrc, by simp⟩,
          fun hko => by simp [Outcome.isOk] at hko, Or.inr ⟨rfl, rfl⟩,
          fun resp hresp => Outcome.noConfusion hresp⟩
    · rw [hfp] at h
      dsimp only [] at h
      simp only [Prod.mk.injEq] at h
      obtain ⟨rfl, rfl, rfl⟩ := h
      exact ⟨rfl, rfl, rfl, fun _ => ⟨htrc, rfl⟩,
        fun hko => by simp [Outcome.isOk] at hko, Or.inl htrk,
        fun resp hresp => Outcome.noConfusion hresp⟩

theorem validateRequest_gaokao_of_setId {req : SubmitRequest} {s : String}
    (hs : req.setId = .str s) (hne : s ≠ "") :
    ∀ v, validateRequest req = .ok v → v.1 = gaokaoChallenge ∧ v.2.1 = s := by
  intro v h
  unfold validateRequest at h
  rw [hs] at h
  dsimp only [] at h
  rw [if_pos hne] at h
  dsimp only [] at h
  rcases hhi : req.handwritingImage with _ | s2 | f <;> rw [hhi] at h <;>
    dsimp only [] at h
  · exact Except.noConfusion h
  · exact Except.noConfusion h
  · by_cases hz : f.size = 0
    · rw [if_pos hz] at h
      exact Except.noConfusion h
    · rw [if_neg hz] at h
      by_cases hm : MAX_UPLOAD_IMAGE_BYTES < f.size
      · rw [if_pos hm] at h
        exact Except.noConfusion h
      · rw [if_neg hm] at h
        cases h
        exact ⟨rfl, rfl⟩

theorem validateRequest_neither {req : SubmitRequest}
    (h1 : req.setId.presentStr = false) (h2 : req.chapterOrder.presentStr = false) :
    validateRequest req = .error (400, "請求無效：缺少有效的挑戰標識 (題組 ID 或篇目順序號)。") := by
  unfold validateRequest
  rcases hs : req.setId with _ | s | f <;>
    rcases hc : req.chapterOrder with _ | c | g <;>
    rw [hs] at h1 <;> rw [hc] at h2 <;>
    simp only [FormField.presentStr] at h1 h2 <;>
    dsimp only [] <;>
    simp_all

theorem validateRequest_chapter {req : SubmitRequest} {co : String} {img : ImageFile}
    (h1 : req.setId.presentStr = false) (hc : req.chapterOrder = .str co)
    (hco : co ≠ "") (hi : req.handwritingImage = .file img) (hz : img.size ≠ 0)
    (hm : img.size ≤ MAX_UPLOAD_IMAGE_BYTES) :
    validateRequest req = .ok (chapterChallenge, co, img) := by
  unfold validateRequest
  have hchall : (match req.setId with
      | .str s =>
          if s ≠ "" then some (gaokaoChallenge, s)
          else
            match req.chapterOrder with
            | .str c => if c ≠ "" then some (chapterChallenge, c) else none
            | _ => none
      | _ =>
          match req.chapterOrder with
          | .str c => if c ≠ "" then some (chapterChallenge, c) else none
          | _ => none) = some (chapterChallenge, co) := by
    rcases hs : req.setId with _ | s | f <;> rw [hs] at h1 <;>
      simp only [FormField.presentStr, bne_eq_false_iff_eq] at h1 <;>
      dsimp only [] <;> rw [hc] <;> dsimp only [] <;> simp [hco, h1]
  rw [hchall]
  dsimp only []
  rw [hi]
  dsimp only []
  rw [if_neg hz, if_neg (not_lt.mpr hm)]

theorem resolveChapterStage_quota (env : SubmitEnv) (ident : String) (st : Store)
    (tr : RunTrace) (order : ℤ) (hp : parseIntJs ident = some order)
    (hq : CHAPTER_DAILY_SUBMIT_LIMIT ≤ parseStoredCounter
        (st.chapterAttempt (CScope.daily, env.dailyKey, env.userId, order))
        CHAPTER_DAILY_SUBMIT_LIMIT ∨
      CHAPTER_WEEKLY_SUBMIT_LIMIT ≤ parseStoredCounter
        (st.chapterAttempt (CScope.weekly, env.weeklyKey, env.userId, order))
        CHAPTER_WEEKLY_SUBMIT_LIMIT) :
    ∃ msg tr', resolveChapterStage env ident st tr = (.error (429, msg), tr') ∧
      tr'.r2Puts = tr.r2Puts ∧ tr'.aiCalls = tr.aiCalls := by
  unfold resolveChapterStage
  rw [hp]
  dsimp only []
  by_cases hd : CHAPTER_DAILY_SUBMIT_LIMIT ≤ parseStoredCounter
      (st.chapterAttempt (CScope.daily, env.dailyKey, env.userId, order))
      CHAPTER_DAILY_SUBMIT_LIMIT
  · rw [if_pos hd]
    exact ⟨_, _, rfl, rfl, rfl⟩
  · rw [if_neg hd]
    have hw := hq.resolve_left hd
    rw [if_pos hw]
    exact ⟨_, _, rfl, rfl, rfl⟩

theorem submitBody_spec (env : SubmitEnv) (o : Oracle) (req : SubmitRequest)
    (st : Store) :
    ∀ out st' tr', submitBody env o req st = (out, st', tr') →
      (out.isOk = false → tr'.scoreCommitted = false ∧
        st'.submitCooldown = st.submitCooldown) ∧
      (out.isOk = true → tr'.scoreCommitted = true ∧
        st'.submitCooldown env.userId = some (toString env.now) ∧
        (∀ fpk, tr'.imageFingerprintKey = some fpk →
          st'.fingerprints fpk = some (toString env.now)) ∧
        (∀ k, tr'.r2Key = some k → (st'.r2 k).isSome = true)) ∧
      (tr'.imageFingerprintKey.isSome = true → tr'.imageFingerprintReserved = true) ∧
      (∀ resp, out = .ok resp → resp.feedback ≠ "") ∧
      st'.submitLock = st.submitLock ∧
      (∀ s, req.setId = .str s → s ≠ "" → out.isOk = true →
        (∃ qset, st.gaokaoSets s = some qset ∧ qset.ownerUserId = env.userId ∧
          (qset.usedAt = none ∨ qset.usedAt = some 0)) ∧
        st'.gaokaoSets s = none) := by
  intro out st' tr' h
  unfold submitBody at h
  rcases hv : validateRequest req with e | v
  · rw [hv] at h
    dsimp only [] at h
    simp only [Prod.mk.injEq] at h
    obtain ⟨rfl, rfl, rfl⟩ := h
    refine ⟨fun _ => ⟨rfl, rfl⟩, fun hko => by simp [Outcome.isOk] at hko, ?_,
      fun resp hresp => Outcome.noConfusion hresp, rfl, ?_⟩
    · intro hk
      simp at hk
    · intro s _ _ hko
      simp [Outcome.isOk] at hko
  · rw [hv] at h
    dsimp only [] at h
    by_cases hck : v.1 = gaokaoChallenge
    · rw [if_pos hck] at h
      rcases hrg : resolveGaokaoStage env o v.2.1 st { challenge := some v.1 }
        with ⟨r, st1, tr1⟩
      rw [hrg] at h
      obtain ⟨gsl, gsc, gss, gfp, gr2, gca, gst, gfk, gfr, gff, grk, gsk, gok⟩ :=
        resolveGaokaoStage_spec env o v.2.1 st _ r st1 tr1 hrg
      rcases r with e2 | qs
      · dsimp only [] at h
        simp only [Prod.mk.injEq] at h
        obtain ⟨rfl, rfl, rfl⟩ := h
        refine ⟨fun _ => ⟨by simp [gsk], by simp [gsc]⟩,
          fun hko => by simp [Outcome.isOk] at hko, ?_,
          fun resp hresp => Outcome.noConfusion hresp, by simp [gsl], ?_⟩
        · intro hk
          rw [gfk] at hk
          simp at hk
        · intro s _ _ hko
          simp [Outcome.isOk] at hko
      · dsimp only [] at h
        obtain ⟨asl, agl, aglk, aerr, aok, akey, afb⟩ :=
          afterResolve_spec env o v.1 v.2.1 v.2.2 qs st1 _
            (by rw [gfk]) (by rw [gsk]) out st' tr' h
        refine ⟨?_, ?_, ?_, afb, by rw [asl, gsl], ?_⟩
        · intro hko
          obtain ⟨hsc, hcd⟩ := aerr hko
          exact ⟨hsc, by rw [hcd, gsc]⟩
        · intro hko
          obtain ⟨hsc, hcd, _, hfpo, hr2o⟩ := aok hko
          exact ⟨hsc, hcd, hfpo, hr2o⟩
        · intro hk
          rcases akey with hn | ⟨hs2, hr2⟩
          · rw [hn] at hk
            simp at hk
          · exact hr2
        · intro s hset hsne hko
          obtain ⟨hv1, hv2⟩ := validateRequest_gaokao_of_setId hset hsne v hv
          obtain ⟨hsc, hcd, hgs, _, _⟩ := aok hko
          obtain ⟨qset, hq1, hq2, hlen, hq3, hq4⟩ := gok qs rfl
          rw [hv2] at hq1
          refine ⟨⟨qset, hq1, hq3, hq4⟩, ?_⟩
          rw [← hv2]
          exact hgs hck
    · rw [if_neg hck] at h
      rcases hrc : resolveChapterStage env v.2.1 st { challenge := some v.1 }
        with ⟨r, tr1⟩
      rw [hrc] at h
      obtain ⟨cfk, cfr, cff, crk, csk, cgl⟩ :=
        resolveChapterStage_spec env v.2.1 st _ r tr1 hrc
      rcases r with e2 | qs
      · dsimp only [] at h
        simp only [Prod.mk.injEq] at h
        obtain ⟨rfl, rfl, rfl⟩ := h
        refine ⟨fun _ => ⟨by simp [csk], rfl⟩,
          fun hko => by simp [Outcome.isOk] at hko, ?_,
          fun resp hresp => Outcome.noConfusion hresp, rfl, ?_⟩
        · intro hk
          rw [cfk] at hk
          simp at hk
        · intro s hset hsne hko
          obtain ⟨hv1, _⟩ := validateRequest_gaokao_of_setId hset hsne v hv
          exact absurd hv1 hck
      · dsimp only [] at h
        obtain ⟨asl, agl, aglk, aerr, aok, akey, afb⟩ :=
          afterResolve_spec env o v.1 v.2.1 v.2.2 qs st _
            (by rw [cfk]) (by rw [csk]) out st' tr' h
        refine ⟨aerr, ?_, ?_, afb, asl, ?_⟩
        · intro hko
          obtain ⟨hsc, hcd, _, hfpo, hr2o⟩ := aok hko
          exact ⟨hsc, hcd, hfpo, hr2o⟩
        · intro hk
          rcases akey with hn | ⟨hs2, hr2⟩
          · rw [hn] at hk
            simp at hk
          · exact hr2
        · intro s hset hsne hko
          obtain ⟨hv1, _⟩ := validateRequest_gaokao_of_setId hset hsne v hv
          exact absurd hv1 hck

theorem finallyCleanup_spec (env : SubmitEnv) (st : Store) (tr : RunTrace) :
    (finallyCleanup env st tr).submitLock env.userId = none ∧
    (∀ k, tr.gaokaoSetLockKey = some k →
      (finallyCleanup env st tr).gaokaoSetLock k = none) ∧
    (finallyCleanup env st tr).submitCooldown = st.submitCooldown ∧
    (finallyCleanup env st tr).gaokaoSets = st.gaokaoSets ∧
    (tr.scoreCommitted = true →
      (finallyCleanup env st tr).fingerprints = st.fingerprints ∧
      (finallyCleanup env st tr).r2 = st.r2) ∧
    (tr.scoreCommitted = false →
      (∀ k, tr.r2Key = some k → (finallyCleanup env st tr).r2 k = none) ∧
      (∀ fpk, tr.imageFingerprintKey = some fpk →
        tr.imageFingerprintReserved = true → tr.imageFingerprintFinalized = false →
        (finallyCleanup env st tr).fingerprints fpk = none)) ∧
    (tr.r2Key = none → (finallyCleanup env st tr).r2 = st.r2) ∧
    (tr.imageFingerprintKey = none →
      (finallyCleanup env st tr).fingerprints = st.fingerprints) := by
  unfold finallyCleanup
  rcases hgl : tr.gaokaoSetLockKey with _ | gk <;>
    rcases hsc : tr.scoreCommitted <;>
    rcases hfk : tr.imageFingerprintKey with _ | fpk <;>
    rcases hr2 : tr.r2Key with _ | rk <;>
    rcases hrv : tr.imageFingerprintReserved <;>
    rcases hfin : tr.imageFingerprintFinalized <;>
    simp_all

theorem handleSubmit_spec (env : SubmitEnv) (o : Oracle) (req : SubmitRequest)
    (st : Store) (hlock : st.submitLock env.userId = none)
    (hcool : st.submitCooldown env.userId = none) :
    ∀ out post tr, handleSubmit env o req st = (out, post, tr) →
      post.submitLock env.userId = none ∧
      (∀ k, tr.gaokaoSetLockKey = some k → post.gaokaoSetLock k = none) ∧
      (out.isOk = true → post.submitCooldown env.userId = some (toString env.now)) ∧
      (out.isOk = false → post.submitCooldown env.userId = none) ∧
      (out.isOk = false → tr.scoreCommitted = false ∧
        (∀ k, tr.r2Key = some k → post.r2 k = none) ∧
        (∀ fpk, tr.imageFingerprintKey = some fpk →
          tr.imageFingerprintFinalized = false → post.fingerprints fpk = none)) ∧
      (out.isOk = true → tr.scoreCommitted = true ∧
        (∀ fpk, tr.imageFingerprintKey = some fpk →
          post.fingerprints fpk = some (toString env.now)) ∧
        (∀ k, tr.r2Key = some k → (post.r2 k).isSome = true)) ∧
      (∀ resp, out = .ok resp → resp.feedback ≠ "") ∧
      (∀ s, req.setId = .str s → s ≠ "" → out.isOk = true →
        (∃ qset, st.gaokaoSets s = some qset ∧ qset.ownerUserId = env.userId ∧
          (qset.usedAt = none ∨ qset.usedAt = some 0)) ∧ post.gaokaoSets s = none) := by
  intro out post tr h
  unfold handleSubmit at h
  rw [hlock] at h
  dsimp only [] at h
  rw [hcool] at h
  dsimp only [] at h
  rcases hb : submitBody env o req (st.putSubmitLock env.userId (toString env.now))
    with ⟨bout, bst, btr⟩
  rw [hb] at h
  dsimp only [] at h
  simp only [Prod.mk.injEq] at h
  obtain ⟨rfl, rfl, rfl⟩ := h
  obtain ⟨berr, bok, bkey, bfb, bsl, bgk⟩ :=
    submitBody_spec env o req _ bout bst btr hb
  obtain ⟨fsl, fgl, fcd, fgs, fcom, fnc, -, -⟩ := finallyCleanup_spec env bst btr
  refine ⟨fsl, fgl, ?_, ?_, ?_, ?_, bfb, ?_⟩
  · intro hko
    obtain ⟨-, hcd, -, -⟩ := bok hko
    rw [fcd, hcd]
  · intro hko
    obtain ⟨-, hcd⟩ := berr hko
    rw [fcd, hcd]
    simp [hcool]
  · intro hko
    obtain ⟨hsc, hcd⟩ := berr hko
    obtain ⟨hrr2, hrfp⟩ := fnc hsc
    exact ⟨hsc, hrr2, fun fpk hfpk hfin =>
      hrfp fpk hfpk (bkey (by rw [hfpk]; rfl)) hfin⟩
  · intro hko
    obtain ⟨hsc, hcd, hfpo, hr2o⟩ := bok hko
    obtain ⟨hfpeq, hr2eq⟩ := fcom hsc
    exact ⟨hsc, fun fpk hfpk => by rw [hfpeq]; exact hfpo fpk hfpk,
      fun k hk => by rw [hr2eq]; exact hr2o k hk⟩
  · intro s hset hsne hko
    obtain ⟨⟨qset, hq1, hq2, hq3⟩, hdel⟩ := bgk s hset hsne hko
    refine ⟨⟨qset, ?_, hq2, hq3⟩, ?_⟩
    · simpa using hq1
    · rw [fgs]
      exact hdel

theorem scoreOne_score_cases (i : ℕ) (qid rec : String) (c : Option String)
    (pQ : ℚ) : (scoreOne i qid rec c pQ).score = 0 ∨
      (scoreOne i qid rec c pQ).score = pQ := by
  unfold scoreOne
  rcases c with _ | c <;> simp only []
  · simp
  · split <;> simp_all
    split <;> simp
    split <;> simp
    tauto

theorem sum_scores_mul {pQ : ℚ} :
    ∀ l : List SubmissionResult, (∀ r ∈ l, r.score = 0 ∨ r.score = pQ) →
      ∃ k : ℕ, k ≤ l.length ∧ (l.map (·.score)).sum = k * pQ := by
  intro l
  induction l with
  | nil => intro _; exact ⟨0, by simp, by simp⟩
  | cons r rest ih =>
      intro h
      obtain ⟨k, hk, hsum⟩ := ih (fun x hx => h x (List.mem_cons_of_mem _ hx))
      rcases h r (List.mem_cons_self _ _) with h0 | hpq
      · exact ⟨k, by simpa using Nat.le_succ_of_le hk, by simp [h0, hsum]⟩
      · refine ⟨k + 1, by simpa using Nat.succ_le_succ hk, ?_⟩
        push_cast
        simp [hpq, hsum]
        ring

theorem pointsPerQuestion_of_pos {n : ℕ} (h : 0 < n) : pointsPerQuestion n = 2 := by
  unfold pointsPerQuestion getScoreTarget SCORE_PER_QUESTION
  rw [if_pos h, Nat.max_eq_right h]
  have hn : (n : ℚ) ≠ 0 := Nat.cast_ne_zero.mpr h.ne'
  push_cast
  field_simp

theorem scoreAll_total_shape (sa ca qi : List String) (n : ℕ) :
    ∃ k : ℕ, k ≤ n ∧ (scoreAll sa ca qi n).2 = (k : ℚ) * 2 := by
  have hmem : ∀ r ∈ scoreResults sa ca qi n,
      r.score = 0 ∨ r.score = pointsPerQuestion n := by
    intro r hr
    obtain ⟨i, _, rfl⟩ := List.mem_map.1 hr
    exact scoreOne_score_cases _ _ _ _ _
  obtain ⟨k, hk, hsum⟩ := sum_scores_mul _ hmem
  rw [scoreResults, List.length_map, List.length_range] at hk
  refine ⟨k, hk, ?_⟩
  rcases Nat.eq_zero_or_pos n with h0 | hpos
  · subst h0
    interval_cases k
    simp [scoreAll, scoreResults, roundJs]
    norm_num
  · have h2 : ((scoreResults sa ca qi n).map (·.score)).sum = (k : ℚ) * 2 := by
      rw [hsum, pointsPerQuestion_of_pos hpos]
    show ((roundJs (((scoreResults sa ca qi n).map (·.score)).sum * 10) : ℚ)) / 10 =
      (k : ℚ) * 2
    rw [h2]
    have h3 : (k : ℚ) * 2 * 10 = ((20 * (k : ℤ) : ℤ) : ℚ) := by push_cast; ring
    rw [h3, roundJs_intCast]
    push_cast
    ring

theorem calculatePointsAwarded_ge_five (f : ℚ → ℚ) (ts tgt : ℚ) (qc : ℕ) :
    5 ≤ calculatePointsAwarded f ts tgt qc := by
  unfold calculatePointsAwarded
  simp only []
  have hacc : (0 : ℚ) ≤ max 0 (min 1 (ts / max tgt 1)) := le_max_left _ _
  have hdiff : (0 : ℚ) ≤ max (4 / 5) (min (3 / 2)
      (f ((max qc 1 : ℚ) / (REFERENCE_QUESTION_COUNT_FOR_POINTS : ℚ)))) :=
    le_trans (by norm_num) (le_max_left _ _)
  have hbase : 0 ≤ roundJs (MAX_POINTS_BASE * max 0 (min 1 (ts / max tgt 1)) *
      max (4 / 5) (min (3 / 2)
        (f ((max qc 1 : ℚ) / (REFERENCE_QUESTION_COUNT_FOR_POINTS : ℚ))))) := by
    refine roundJs_nonneg (mul_nonneg (mul_nonneg ?_ hacc) hdiff)
    unfold MAX_POINTS_BASE
    norm_num
  split <;> omega

theorem handleSubmit_ok_admission (env : SubmitEnv) (o : Oracle) (req : SubmitRequest)
    (st : Store) (hok : (handleSubmit env o req st).1.isOk = true) :
    st.submitLock env.userId = none ∧ st.submitCooldown env.userId = none := by
  unfold handleSubmit at hok
  rcases hl : st.submitLock env.userId with _ | v
  · rcases hc : st.submitCooldown env.userId with _ | w
    · exact ⟨rfl, rfl⟩
    · rw [hl, hc] at hok
      simp [Outcome.isOk] at hok
  · rw [hl] at hok
    simp [Outcome.isOk] at hok

/-- C1: for every GaoKao `setId`, a submission can succeed only when the set
exists, is owned by the requesting user and is not yet consumed, and a
successful submission deletes the set from the store; moreover any submit
call that references a `setId` absent from the store (in particular any call
made after the first success deleted it, by the same or a different user)
is rejected.  Together these give: at most one successful `/submit` per
`setId`, never by a non-owner. -/
theorem C1_gaokao_single_use (env : SubmitEnv) (o : Oracle) (req : SubmitRequest)
    (st : Store) (s : String) (hset : req.setId = .str s) (hsne : s ≠ "")
    (hok : (handleSubmit env o req st).1.isOk = true) :
    ((∃ qset, st.gaokaoSets s = some qset ∧ qset.ownerUserId = env.userId ∧
        (qset.usedAt = none ∨ qset.usedAt = some 0)) ∧
      (handleSubmit env o req st).2.1.gaokaoSets s = none) ∧
    (∀ env2 o2 req2 st2, req2.setId = FormField.str s →
      st2.gaokaoSets s = none → (handleSubmit env2 o2 req2 st2).1.isOk = false) := by
  constructor
  · obtain ⟨hlock, hcool⟩ := handleSubmit_ok_admission env o req st hok
    obtain ⟨-, -, -, -, -, -, -, hgk⟩ :=
      handleSubmit_spec env o req st hlock hcool
        (handleSubmit env o req st).1 (handleSubmit env o req st).2.1
        (handleSubmit env o req st).2.2 rfl
    exact hgk s hset hsne hok
  · intro env2 o2 req2 st2 hset2 habs
    by_contra hko
    rw [Bool.not_eq_false] at hko
    obtain ⟨hlock2, hcool2⟩ := handleSubmit_ok_admission env2 o2 req2 st2 hko
    obtain ⟨-, -, -, -, -, -, -, hgk2⟩ :=
      handleSubmit_spec env2 o2 req2 st2 hlock2 hcool2
        (handleSubmit env2 o2 req2 st2).1 (handleSubmit env2 o2 req2 st2).2.1
        (handleSubmit env2 o2 req2 st2).2.2 rfl
    obtain ⟨⟨qset, hq, -, -⟩, -⟩ := hgk2 s hset2 hsne hko
    rw [habs] at hq
    exact Option.noConfusion hq

/-- Witness for C1: the concrete owned, unused set `set1` is consumed by a
fully successful run, after which it is gone from the store. -/
theorem C1_gaokao_single_use_witness :
    ((∃ qset, storeA.gaokaoSets "set1" = some qset ∧ qset.ownerUserId = envA.userId ∧
        (qset.usedAt = none ∨ qset.usedAt = some 0)) ∧
      (handleSubmit envA oracleA reqA storeA).2.1.gaokaoSets "set1" = none) ∧
    (∀ env2 o2 req2 st2, req2.setId = FormField.str "set1" →
      st2.gaokaoSets "set1" = none →
      (handleSubmit env2 o2 req2 st2).1.isOk = false) :=
  C1_gaokao_single_use envA oracleA reqA storeA "set1" rfl (by decide) (by decide)

/-- C2 counterexample: a failing exit path of `/submit` (the used-set
deletion fails during commit) on which the per-user cooldown marker is NOT
written, refuting "the cleanup phase writes the per-user cooldown marker on
every exit path"; the cooldown is written only on the success path (line
1852, inside the `try` block, not in `finally`). -/
theorem C2_cooldown_counterexample :
    (handleSubmit envA oracleDelFail reqA storeA).1.isOk = false ∧
    (handleSubmit envA oracleDelFail reqA storeA).2.1.submitCooldown envA.userId
      = none := by
  exact ⟨by decide, by decide⟩

/-- C2 amended: on every exit path taken after admission control passes, the
cleanup releases the per-user submit lock and (when one was acquired) the
per-set lock; the per-user cooldown marker, however, is written exactly on
the successful exit path and never on a failing one. -/
theorem C2_cleanup_amended (env : SubmitEnv) (o : Oracle) (req : SubmitRequest)
    (st : Store) (hlock : st.submitLock env.userId = none)
    (hcool : st.submitCooldown env.userId = none) :
    (handleSubmit env o req st).2.1.submitLock env.userId = none ∧
    (∀ k, (handleSubmit env o req st).2.2.gaokaoSetLockKey = some k →
      (handleSubmit env o req st).2.1.gaokaoSetLock k = none) ∧
    ((handleSubmit env o req st).1.isOk = true →
      (handleSubmit env o req st).2.1.submitCooldown env.userId
        = some (toString env.now)) ∧
    ((handleSubmit env o req st).1.isOk = false →
      (handleSubmit env o req st).2.1.submitCooldown env.userId = none) := by
  obtain ⟨h1, h2, h3, h4, -, -, -, -⟩ :=
    handleSubmit_spec env o req st hlock hcool
      (handleSubmit env o req st).1 (handleSubmit env o req st).2.1
      (handleSubmit env o req st).2.2 rfl
  exact ⟨h1, h2, h3, h4⟩

/-- Witness for the amended C2 at a concrete run. -/
theorem C2_cleanup_amended_witness :
    (handleSubmit envA oracleA reqA storeA).2.1.submitLock envA.userId = none ∧
    (∀ k, (handleSubmit envA oracleA reqA storeA).2.2.gaokaoSetLockKey = some k →
      (handleSubmit envA oracleA reqA storeA).2.1.gaokaoSetLock k = none) ∧
    ((handleSubmit envA oracleA reqA storeA).1.isOk = true →
      (handleSubmit envA oracleA reqA storeA).2.1.submitCooldown envA.userId
        = some (toString envA.now)) ∧
    ((handleSubmit envA oracleA reqA storeA).1.isOk = false →
      (handleSubmit envA oracleA reqA storeA).2.1.submitCooldown envA.userId
        = none) :=
  C2_cleanup_amended envA oracleA reqA storeA rfl rfl

/-- C3 counterexample: an aborted run (used-set delete fails after the
fingerprint was promoted to its finalized long-TTL value, before the stats
commit) on which the fingerprint record is NOT deleted by the rollback — it
survives with the finalized value — refuting "the fingerprint record is
deleted" for every abort between reservation and commit.  The image blob is
deleted on this path. -/
theorem C3_rollback_counterexample :
    (handleSubmit envA oracleDelFail reqA storeA).1.isOk = false ∧
    (handleSubmit envA oracleDelFail reqA storeA).2.2.imageFingerprintReserved
      = true ∧
    (handleSubmit envA oracleDelFail reqA storeA).2.2.scoreCommitted = false ∧
    (handleSubmit envA oracleDelFail reqA storeA).2.1.fingerprints
      ("alice", "fp1") = some "1000" ∧
    (handleSubmit envA oracleDelFail reqA storeA).2.1.r2 "r2-1" = none := by
  exact ⟨by decide, by decide, by decide, by decide, by decide⟩

/-- C3 amended: when the pipeline aborts before the stats commit succeeded,
the stored image blob is deleted and the fingerprint record is deleted
provided it had not yet been finalized by the commit stage (a reservation
already promoted to its finalized form is kept); no rollback runs when the
commit succeeded — the blob and the finalized fingerprint survive. -/
theorem C3_rollback_amended (env : SubmitEnv) (o : Oracle) (req : SubmitRequest)
    (st : Store) (hlock : st.submitLock env.userId = none)
    (hcool : st.submitCooldown env.userId = none) :
    ((handleSubmit env o req st).1.isOk = false →
      (handleSubmit env o req st).2.2.scoreCommitted = false ∧
      (∀ k, (handleSubmit env o req st).2.2.r2Key = some k →
        (handleSubmit env o req st).2.1.r2 k = none) ∧
      (∀ fpk, (handleSubmit env o req st).2.2.imageFingerprintKey = some fpk →
        (handleSubmit env o req st).2.2.imageFingerprintFinalized = false →
        (handleSubmit env o req st).2.1.fingerprints fpk = none)) ∧
    ((handleSubmit env o req st).1.isOk = true →
      (handleSubmit env o req st).2.2.scoreCommitted = true ∧
      (∀ fpk, (handleSubmit env o req st).2.2.imageFingerprintKey = some fpk →
        (handleSubmit env o req st).2.1.fingerprints fpk
          = some (toString env.now)) ∧
      (∀ k, (handleSubmit env o req st).2.2.r2Key = some k →
        ((handleSubmit env o req st).2.1.r2 k).isSome = true)) := by
  obtain ⟨-, -, -, -, h5, h6, -, -⟩ :=
    handleSubmit_spec env o req st hlock hcool
      (handleSubmit env o req st).1 (handleSubmit env o req st).2.1
      (handleSubmit env o req st).2.2 rfl
  exact ⟨h5, h6⟩

/-- Witness for the amended C3 at a concrete run. -/
theorem C3_rollback_amended_witness :
    ((handleSubmit envA oracleDelFail reqA storeA).1.isOk = false →
      (handleSubmit envA oracleDelFail reqA storeA).2.2.scoreCommitted = false ∧
      (∀ k, (handleSubmit envA oracleDelFail reqA storeA).2.2.r2Key = some k →
        (handleSubmit envA oracleDelFail reqA storeA).2.1.r2 k = none) ∧
      (∀ fpk, (handleSubmit envA oracleDelFail reqA storeA).2.2.imageFingerprintKey
          = some fpk →
        (handleSubmit envA oracleDelFail reqA storeA).2.2.imageFingerprintFinalized
          = false →
        (handleSubmit envA oracleDelFail reqA storeA).2.1.fingerprints fpk
          = none)) ∧
    ((handleSubmit envA oracleDelFail reqA storeA).1.isOk = true →
      (handleSubmit envA oracleDelFail reqA storeA).2.2.scoreCommitted = true ∧
      (∀ fpk, (handleSubmit envA oracleDelFail reqA storeA).2.2.imageFingerprintKey
          = some fpk →
        (handleSubmit envA oracleDelFail reqA storeA).2.1.fingerprints fpk
          = some (toString envA.now)) ∧
      (∀ k, (handleSubmit envA oracleDelFail reqA storeA).2.2.r2Key = some k →
        ((handleSubmit envA oracleDelFail reqA storeA).2.1.r2 k).isSome = true)) :=
  C3_rollback_amended envA oracleDelFail reqA storeA rfl rfl

/-- C4 counterexample: a request that provides BOTH `setId` and
`chapterOrder` is not rejected — it is processed (and here fully succeeds)
as a GaoKao submission, refuting "rejected unless exactly one of {setId,
chapterOrder} is provided". -/
theorem C4_both_identifiers_counterexample :
    reqBoth.setId = FormField.str "set1" ∧
    reqBoth.chapterOrder = FormField.str "3" ∧
    (handleSubmit envA oracleA reqBoth storeA).1.isOk = true := by
  exact ⟨rfl, rfl, by decide⟩

/-- C4 amended: the request is rejected with a 400 client error — before any
object-store write or AI call — when NEITHER `setId` nor `chapterOrder` is
provided as a non-empty string; when both are provided, `setId` takes
precedence and the request is processed as a GaoKao submission. -/
theorem C4_validation_amended (env : SubmitEnv) (o : Oracle) (req : SubmitRequest)
    (st : Store) (hlock : st.submitLock env.userId = none)
    (hcool : st.submitCooldown env.userId = none) :
    (req.setId.presentStr = false → req.chapterOrder.presentStr = false →
      (handleSubmit env o req st).1
        = .err 400 "請求無效：缺少有效的挑戰標識 (題組 ID 或篇目順序號)。" ∧
      (handleSubmit env o req st).2.2.r2Puts = [] ∧
      (handleSubmit env o req st).2.2.aiCalls = 0) ∧
    (∀ s, req.setId = FormField.str s → s ≠ "" →
      ∀ v, validateRequest req = .ok v → v.1 = gaokaoChallenge ∧ v.2.1 = s) := by
  constructor
  · intro h1 h2
    unfold handleSubmit submitBody
    rw [hlock]
    dsimp only []
    rw [hcool]
    dsimp only []
    rw [validateRequest_neither h1 h2]
    dsimp only []
    exact ⟨rfl, rfl, rfl⟩
  · intro s hs hn v hv
    exact validateRequest_gaokao_of_setId hs hn v hv

/-- Witness for the amended C4: a request with no challenge identifier at
all is rejected with the 400 message and no external events. -/
theorem C4_validation_amended_witness :
    ((SubmitRequest.mk .missing .missing (.file imgA)).setId.presentStr = false →
      (SubmitRequest.mk .missing .missing (.file imgA)).chapterOrder.presentStr
        = false →
      (handleSubmit envA oracleA (SubmitRequest.mk .missing .missing (.file imgA))
          emptyStore).1
        = .err 400 "請求無效：缺少有效的挑戰標識 (題組 ID 或篇目順序號)。" ∧
      (handleSubmit envA oracleA (SubmitRequest.mk .missing .missing (.file imgA))
          emptyStore).2.2.r2Puts = [] ∧
      (handleSubmit envA oracleA (SubmitRequest.mk .missing .missing (.file imgA))
          emptyStore).2.2.aiCalls = 0) ∧
    (∀ s, (SubmitRequest.mk .missing .missing (.file imgA)).setId
        = FormField.str s → s ≠ "" →
      ∀ v, validateRequest (SubmitRequest.mk .missing .missing (.file imgA))
        = .ok v → v.1 = gaokaoChallenge ∧ v.2.1 = s) :=
  C4_validation_amended envA oracleA (SubmitRequest.mk .missing .missing (.file imgA))
    emptyStore rfl rfl

/-- C5 counterexample: the recognized string `"[月]"` equals the reference
`"月"` after Unicode punctuation/symbol/separator stripping and is non-empty
after stripping, yet the scoring loop marks the slot incorrect (any
recognized text starting with `"["` is treated as a placeholder and fails),
refuting the claimed "if and only if". -/
theorem C5_strip_equality_counterexample :
    removePunctuation "[月]" = removePunctuation "月" ∧
    removePunctuation "[月]" ≠ "" ∧
    (scoreOne 0 "q1" "[月]" (some "月") 2).isCorrect = false := by
  exact ⟨by decide, by decide, by decide⟩

/-- C5 amended: for recognized strings that do not start with the
placeholder marker `"["`, slot correctness is exactly equality of the two
strings after Unicode punctuation/symbol/separator stripping with a
non-empty stripped recognized string; a recognized string starting with
`"["` is never correct.  (In particular correctness is a pure function of
the two strings, and an empty-after-stripping recognized string is never
correct even when the reference is too.) -/
theorem C5_slot_correctness_amended (i : ℕ) (qid rec c : String) (pQ : ℚ) :
    (scoreOne i qid rec (some c) pQ).isCorrect = true ↔
      (startsWithBracket rec = false ∧
        removePunctuation rec = removePunctuation c ∧
        removePunctuation rec ≠ "") := by
  unfold scoreOne
  dsimp only []
  split
  · rename_i hpl
    have hb : startsWithBracket rec = true := by
      rcases hpl with h | h | h <;> subst h <;> decide
    simp [hb]
  · split
    · rename_i hml
      have hb : startsWithBracket rec = true := by
        subst hml
        decide
      simp [hb]
    · by_cases hsw : startsWithBracket rec
      · simp [hsw]
      · simp only [Bool.not_eq_true] at hsw
        simp [hsw]

/-- C6: for every scoring run over `n` slots the rounded total score
satisfies `0 ≤ totalScore ≤ n * SCORE_PER_QUESTION` and is a whole multiple
of `SCORE_PER_QUESTION / 10`. -/
theorem C6_score_bounds (sa ca qi : List String) (n : ℕ) :
    0 ≤ (scoreAll sa ca qi n).2 ∧
    (scoreAll sa ca qi n).2 ≤ (n : ℚ) * (SCORE_PER_QUESTION : ℚ) ∧
    ∃ m : ℕ, (scoreAll sa ca qi n).2 = (m : ℚ) * ((SCORE_PER_QUESTION : ℚ) / 10) := by
  obtain ⟨k, hk, he⟩ := scoreAll_total_shape sa ca qi n
  refine ⟨?_, ?_, ⟨10 * k, ?_⟩⟩
  · rw [he]
    positivity
  · rw [he]
    unfold SCORE_PER_QUESTION
    push_cast
    have hkn : (k : ℚ) ≤ (n : ℚ) := by exact_mod_cast hk
    nlinarith
  · rw [he]
    unfold SCORE_PER_QUESTION
    push_cast
    ring

/-- C7: every completed (successfully scored) submission response carries a
non-empty feedback string, whatever the OCR and feedback-model call
outcomes were. -/
theorem C7_feedback_nonempty (env : SubmitEnv) (o : Oracle) (req : SubmitRequest)
    (st : Store) (resp : SubmitResponse)
    (hok : (handleSubmit env o req st).1 = .ok resp) : resp.feedback ≠ "" := by
  have hko : (handleSubmit env o req st).1.isOk = true := by
    rw [hok]
    rfl
  obtain ⟨hlock, hcool⟩ := handleSubmit_ok_admission env o req st hko
  obtain ⟨-, -, -, -, -, -, hfb, -⟩ :=
    handleSubmit_spec env o req st hlock hcool
      (handleSubmit env o req st).1 (handleSubmit env o req st).2.1
      (handleSubmit env o req st).2.2 rfl
  exact hfb resp hok

/-- Witness for C7: a completed run whose score is imperfect and whose
feedback-model call threw; the response exists and its feedback (the
deterministic fallback) is non-empty. -/
theorem C7_feedback_nonempty_witness :
    (handleSubmit envA oracleFbFail reqA storeA).1
      = .ok (forceOk (handleSubmit envA oracleFbFail reqA storeA).1) ∧
    (forceOk (handleSubmit envA oracleFbFail reqA storeA).1).feedback ≠ "" :=
  ⟨by rfl, C7_feedback_nonempty envA oracleFbFail reqA storeA _ (by rfl)⟩

/-- C8: a chapter-mode submission whose daily (or weekly) attempt counter
for (user, chapter) is already at its limit is rejected with a 429 error
before any object-store write and before any AI call; the R2 bucket is left
untouched. -/
theorem C8_chapter_quota_reject (env : SubmitEnv) (o : Oracle) (req : SubmitRequest)
    (st : Store) (co : String) (img : ImageFile) (order : ℤ)
    (h1 : req.setId.presentStr = false) (hc : req.chapterOrder = .str co)
    (hco : co ≠ "") (hi : req.handwritingImage = .file img)
    (hz : img.size ≠ 0) (hm : img.size ≤ MAX_UPLOAD_IMAGE_BYTES)
    (hp : parseIntJs co = some order)
    (hq : CHAPTER_DAILY_SUBMIT_LIMIT ≤ parseStoredCounter
        (st.chapterAttempt (CScope.daily, env.dailyKey, env.userId, order))
        CHAPTER_DAILY_SUBMIT_LIMIT ∨
      CHAPTER_WEEKLY_SUBMIT_LIMIT ≤ parseStoredCounter
        (st.chapterAttempt (CScope.weekly, env.weeklyKey, env.userId, order))
        CHAPTER_WEEKLY_SUBMIT_LIMIT) :
    ∃ msg, (handleSubmit env o req st).1 = .err 429 msg ∧
      (handleSubmit env o req st).2.2.r2Puts = [] ∧
      (handleSubmit env o req st).2.2.aiCalls = 0 ∧
      (handleSubmit env o req st).2.1.r2 = st.r2 := by
  unfold handleSubmit
  rcases hl : st.submitLock env.userId with _ | v
  · rcases hcl : st.submitCooldown env.userId with _ | w
    · obtain ⟨msg, tr1, hres, hpu, hai⟩ :=
        resolveChapterStage_quota env co
          (st.putSubmitLock env.userId (toString env.now))
          { challenge := some chapterChallenge } order hp (by simpa using hq)
      obtain ⟨cfk, cfr, cff, crk, csk, cgl⟩ :=
        resolveChapterStage_spec env co
          (st.putSubmitLock env.userId (toString env.now))
          { challenge := some chapterChallenge } _ tr1 hres
      have hbody : submitBody env o req
          (st.putSubmitLock env.userId (toString env.now))
          = (Outcome.err 429 msg, st.putSubmitLock env.userId (toString env.now),
             tr1) := by
        unfold submitBody
        rw [validateRequest_chapter h1 hc hco hi hz hm]
        dsimp only []
        rw [if_neg (by decide : ¬ chapterChallenge = gaokaoChallenge)]
        rw [hres]
      dsimp only []
      rw [hbody]
      dsimp only []
      obtain ⟨-, -, -, -, -, -, fr2, -⟩ :=
        finallyCleanup_spec env (st.putSubmitLock env.userId (toString env.now)) tr1
      refine ⟨msg, rfl, by rw [hpu], by rw [hai], ?_⟩
      rw [fr2 (by rw [crk])]
      simp
    · exact ⟨"提交過於頻繁，請稍後再試。", rfl, rfl, rfl, rfl⟩
  · exact ⟨"上一份作答仍在處理中，請稍候。", rfl, rfl, rfl, rfl⟩

/-- Witness for C8: the daily counter for (alice, chapter 3) already equals
the limit 2, so the concrete chapter submission is rejected with 429 and no
R2 write or AI call happens. -/
theorem C8_chapter_quota_reject_witness :
    ∃ msg, (handleSubmit envA oracleA reqChapter storeQuota).1 = .err 429 msg ∧
      (handleSubmit envA oracleA reqChapter storeQuota).2.2.r2Puts = [] ∧
      (handleSubmit envA oracleA reqChapter storeQuota).2.2.aiCalls = 0 ∧
      (handleSubmit envA oracleA reqChapter storeQuota).2.1.r2 = storeQuota.r2 :=
  C8_chapter_quota_reject envA oracleA reqChapter storeQuota "3" imgA 3
    (by decide) rfl (by decide) rfl (by decide) (by decide) (by decide)
    (Or.inl (by decide))

/-- C9: `calculatePointsAwarded` always returns at least 5 (the base points
are non-negative, the participation bonus is a flat 5, the full-score bonus
is non-negative), so every committed submission increases the user's stored
points by at least 5 — even with a total score of 0. -/
theorem C9_points_min_five :
    (∀ (f : ℚ → ℚ) (ts tgt : ℚ) (qc : ℕ), 5 ≤ calculatePointsAwarded f ts tgt qc) ∧
    (∀ (stq : Store) (sc : LeaderboardScope) (p u un : String) (f : ℚ → ℚ)
      (ts0 tgt : ℚ) (qc : ℕ) (ts : ℚ) (now : ℕ),
      ((updateScopedStats stq sc p u un (calculatePointsAwarded f ts0 tgt qc)
          ts now).1).points
        = ((stq.stats (sc, p, u)).map (·.points)).getD 0
            + calculatePointsAwarded f ts0 tgt qc ∧
      ((stq.stats (sc, p, u)).map (·.points)).getD 0 + 5 ≤
        ((updateScopedStats stq sc p u un (calculatePointsAwarded f ts0 tgt qc)
            ts now).1).points) := by
  refine ⟨calculatePointsAwarded_ge_five, ?_⟩
  intro stq sc p u un f ts0 tgt qc ts now
  refine ⟨rfl, ?_⟩
  have h5 := calculatePointsAwarded_ge_five f ts0 tgt qc
  unfold updateScopedStats
  dsimp only []
  linarith

/-- C10: `toLeaderboardEntry` never divides by zero — with zero attempts the
average score is 0, and with positive attempts it is `totalScore/attempts`
rounded to two decimal places (an integer number of hundredths within
`1/200` of the true average). -/
theorem C10_avg_score (stats : UserStats) :
    (stats.attempts = 0 → (toLeaderboardEntry stats).avgScore = 0) ∧
    (0 < stats.attempts →
      ∃ m : ℤ, (toLeaderboardEntry stats).avgScore = (m : ℚ) / 100 ∧
        |(toLeaderboardEntry stats).avgScore
            - stats.totalScore / (stats.attempts : ℚ)| ≤ 1 / 200) := by
  constructor
  · intro h
    unfold toLeaderboardEntry
    dsimp only []
    rw [if_neg (by omega)]
  · intro h
    unfold toLeaderboardEntry
    dsimp only []
    rw [if_pos h]
    refine ⟨roundJs (stats.totalScore / (stats.attempts : ℚ) * 100), rfl, ?_⟩
    have hb := roundJs_sub_le (stats.totalScore / (stats.attempts : ℚ) * 100)
    have h2 : ((roundJs (stats.totalScore / (stats.attempts : ℚ) * 100) : ℚ)) / 100
        - stats.totalScore / (stats.attempts : ℚ)
        = (((roundJs (stats.totalScore / (stats.attempts : ℚ) * 100) : ℚ))
            - stats.totalScore / (stats.attempts : ℚ) * 100) / 100 := by
      ring
    rw [h2, abs_div]
    rw [show |(100 : ℚ)| = 100 from by norm_num]
    linarith [hb]

/-- Witness for C10 at concrete stats records with 0 and 2 attempts. -/
theorem C10_avg_score_witness :
    (toLeaderboardEntry statsZero).avgScore = 0 ∧
    ∃ m : ℤ, (toLeaderboardEntry statsTwo).avgScore = (m : ℚ) / 100 ∧
      |(toLeaderboardEntry statsTwo).avgScore
          - statsTwo.totalScore / (statsTwo.attempts : ℚ)| ≤ 1 / 200 :=
  ⟨(C10_avg_score statsZero).1 rfl, (C10_avg_score statsTwo).2 (by decide)⟩

end Moxie
